import Mathlib

/-!
Verification of the iD/Rapid map-math viewport and projection subsystem.

The development shallowly embeds `packages/math/src/Viewport.ts` and
`packages/math/src/projection.ts` over the real numbers: JavaScript numbers
become `ℝ`, 2-D points become `ℝ × ℝ`, mutating accessors become functions
from state to state, and the optional/partial arguments of the constructor
and of `transform()` become `Option` values (JavaScript `undefined` = `none`).

The collaborator modules (`constants`, `number`, `vector`, `Extent`, `geo`)
are not part of the source tree; they are modelled from the specification,
as marked on each such definition.
-/

open Real Filter

noncomputable section

abbrev Vec2 : Type := ℝ × ℝ

/-- Modelled from the spec: the `constants` module is absent from the source tree.
`TAU = 2π`. -/
def TAU : ℝ := 2 * Real.pi

/-- Modelled from the spec: degree→radian conversion factor. -/
def DEG2RAD : ℝ := Real.pi / 180

/-- Modelled from the spec: radian→degree conversion factor. -/
def RAD2DEG : ℝ := 180 / Real.pi

/-- Modelled from the spec: `HALF_PI = π/2`. -/
def HALF_PI : ℝ := Real.pi / 2

/-- Modelled from the spec: minimum scale, the Mercator scale of zoom 0
(`geoZoomToScale z = 256·2^z / TAU`, so zoom bounds z0..z24 give `MIN_K = 256/TAU`). -/
def MIN_K : ℝ := 256 / TAU

/-- Modelled from the spec: maximum scale, the Mercator scale of zoom 24. -/
def MAX_K : ℝ := 256 * 2 ^ (24 : ℕ) / TAU

/-- Modelled from the spec: lower latitude clamp bound, strictly inside `(-π/2, π/2)`;
chosen as the latitude whose Mercator y is exactly `-π` (matching `unproject`'s
clamp of Mercator y to `[-π, π]`). -/
def MIN_PHI : ℝ := 2 * Real.arctan (Real.exp (-Real.pi)) - HALF_PI

/-- Modelled from the spec: upper latitude clamp bound, the latitude whose
Mercator y is exactly `π`. -/
def MAX_PHI : ℝ := 2 * Real.arctan (Real.exp Real.pi) - HALF_PI

/-- Modelled from the spec: numeric helper — clamp a value into `[lo, hi]`. -/
def numClamp (val lo hi : ℝ) : ℝ := min (max val lo) hi

/-- Modelled from the spec: numeric helper — wrap a value into `[lo, hi)` modularly. -/
def numWrap (val lo hi : ℝ) : ℝ := lo + (hi - lo) * Int.fract ((val - lo) / (hi - lo))

/-- Modelled from the spec: vector helper — component-wise scale. -/
def vecScale (p : Vec2) (f : ℝ) : Vec2 := (p.1 * f, p.2 * f)

/-- Modelled from the spec: vector helper — component-wise round-up to integer. -/
def vecCeil (p : Vec2) : Vec2 := ((⌈p.1⌉ : ℝ), (⌈p.2⌉ : ℝ))

/-- Modelled from the spec: vector helper — rotate point `p` about `c` by angle `a`
(radians), clockwise for positive `a` in screen coordinates (y grows downward). -/
def vecRotate (p : Vec2) (a : ℝ) (c : Vec2) : Vec2 :=
  ((p.1 - c.1) * Real.cos a - (p.2 - c.2) * Real.sin a + c.1,
   (p.1 - c.1) * Real.sin a + (p.2 - c.2) * Real.cos a + c.2)

/-- JavaScript `v || d`: the default `d` when the value is absent (`undefined`)
or falsy (`0`), the value itself otherwise. -/
def jsOr (v : Option ℝ) (d : ℝ) : ℝ :=
  match v with
  | none => d
  | some x => if x = 0 then d else x

/-- The parameters that define the viewport (`Transform` in `Viewport.ts`). -/
structure Transform where
  x : ℝ
  y : ℝ
  k : ℝ
  r : ℝ

/-- The state of a `Viewport`: one `Transform` plus one dimensions pair. -/
structure ViewportState where
  transform : Transform
  dimensions : Vec2

/-- `Viewport` constructor. The optional `transform` argument's fields appear as
four options (an absent object = all `none`); the JavaScript `||`-defaults are
modelled by `jsOr`. Source: `Viewport.ts` constructor. -/
def mkViewport (tx ty tk tr : Option ℝ) (dims : Option Vec2) : ViewportState :=
  { transform :=
      { x := jsOr tx 0
        y := jsOr ty 0
        k := numClamp (jsOr tk (256 / Real.pi)) MIN_K MAX_K
        r := numWrap (jsOr tr 0) 0 TAU }
    dimensions := dims.getD (0, 0) }

/-- The `mercatorY` intermediate of `Viewport.project`:
`Math.log(Math.tan((HALF_PI + phi) / 2))`. -/
def mercatorY (phi : ℝ) : ℝ := Real.log (Real.tan ((HALF_PI + phi) / 2))

/-- `Viewport.project(loc, includeRotation?)`. Source: `Viewport.ts` lines 90–105. -/
def Viewport.project (s : ViewportState) (loc : Vec2) (includeRotation : Bool) : Vec2 :=
  let lambda := loc.1 * DEG2RAD
  let phi := numClamp (loc.2 * DEG2RAD) MIN_PHI MAX_PHI
  let mercatorX := lambda
  let point : Vec2 := (mercatorX * s.transform.k + s.transform.x,
                       s.transform.y - mercatorY phi * s.transform.k)
  if includeRotation ∧ s.transform.r ≠ 0 then
    vecRotate point s.transform.r (vecScale s.dimensions 0.5)
  else point

/-- `Viewport.unproject(point, includeRotation?)`. Source: `Viewport.ts` lines 118–132. -/
def Viewport.unproject (s : ViewportState) (point : Vec2) (includeRotation : Bool) : Vec2 :=
  let p := if includeRotation ∧ s.transform.r ≠ 0 then
      vecRotate point (-s.transform.r) (vecScale s.dimensions 0.5)
    else point
  let mercatorX := (p.1 - s.transform.x) / s.transform.k
  let mercY := numClamp ((s.transform.y - p.2) / s.transform.k) (-Real.pi) Real.pi
  let phi := 2 * Real.arctan (Real.exp mercY) - HALF_PI
  (mercatorX * RAD2DEG, phi * RAD2DEG)

/-- Setter half of `Viewport.translate`. -/
def Viewport.translateSet (s : ViewportState) (val : Vec2) : ViewportState :=
  { s with transform := { s.transform with x := val.1, y := val.2 } }

/-- Setter half of `Viewport.scale`: `numClamp(+val, MIN_K, MAX_K)`. -/
def Viewport.scaleSet (s : ViewportState) (val : ℝ) : ViewportState :=
  { s with transform := { s.transform with k := numClamp val MIN_K MAX_K } }

/-- Setter half of `Viewport.rotate`: `numWrap(+val, 0, TAU)`. -/
def Viewport.rotateSet (s : ViewportState) (val : ℝ) : ViewportState :=
  { s with transform := { s.transform with r := numWrap val 0 TAU } }

/-- Getter half of `Viewport.transform()`: returns the current transform value
(`Object.assign({}, ...)` — a copy, rendered here by value semantics). -/
def Viewport.transformGet (s : ViewportState) : Transform := s.transform

/-- Setter half of `Viewport.transform(obj)`: a partial merge — each field is
updated only when present (`obj.x !== undefined`), `k` clamped, `r` wrapped. -/
def Viewport.transformSet (s : ViewportState) (ox oy ok orr : Option ℝ) : ViewportState :=
  { s with transform :=
      { x := match ox with | none => s.transform.x | some v => v
        y := match oy with | none => s.transform.y | some v => v
        k := match ok with | none => s.transform.k | some v => numClamp v MIN_K MAX_K
        r := match orr with | none => s.transform.r | some v => numWrap v 0 TAU } }

/-- Setter half of `Viewport.dimensions`: `vecCeil([+val[0], +val[1]])`. -/
def Viewport.dimensionsSet (s : ViewportState) (val : Vec2) : ViewportState :=
  { s with dimensions := vecCeil val }

/-- `Viewport.center()`. -/
def Viewport.center (s : ViewportState) : Vec2 := vecScale s.dimensions 0.5

/-- `Viewport.visiblePolygon()`. Source: `Viewport.ts` lines 254–279, including
the unrotated branch's vertex list `[[0,0],[0,h],[w,h],[0,w],[0,0]]` exactly
as written there. -/
def Viewport.visiblePolygon (s : ViewportState) : List Vec2 :=
  let w := s.dimensions.1
  let h := s.dimensions.2
  let r := s.transform.r
  if r ≠ 0 then
    let sinr := |Real.sin r|
    let cosr := |Real.cos r|
    let ae := w * sinr
    let af := h * cosr
    let ex := ae * sinr
    let ey := ae * cosr
    let fx := af * sinr
    let fy := af * cosr
    [(ex, -ey), (-fx, fy), (w - ex, h + ey), (w + fx, h - fy), (ex, -ey)]
  else
    [(0, 0), (0, h), (w, h), (0, w), (0, 0)]

/-- `Viewport.visibleDimensions()`. Source: `Viewport.ts` lines 282–297. -/
def Viewport.visibleDimensions (s : ViewportState) : Vec2 :=
  let w := s.dimensions.1
  let h := s.dimensions.2
  let r := s.transform.r
  if r ≠ 0 then
    let sinr := |Real.sin r|
    let cosr := |Real.cos r|
    vecCeil (w * cosr + h * sinr, h * cosr + w * sinr)
  else
    (w, h)

/-- `Viewport.visibleCenter()`. -/
def Viewport.visibleCenter (s : ViewportState) : Vec2 :=
  vecScale (Viewport.visibleDimensions s) 0.5

/-- Modelled from the spec: the external `Extent` type — an axis-aligned bounding
box, constructible empty (`none`), carrying min and max corners otherwise. -/
abbrev Extent : Type := Option (Vec2 × Vec2)

/-- Modelled from the spec: `Extent.extendSelf(point)` — extend a bounding box to
include a point. -/
def Extent.extendSelf (e : Extent) (p : Vec2) : Extent :=
  match e with
  | none => some (p, p)
  | some (mn, mx) =>
      some ((min mn.1 p.1, min mn.2 p.2), (max mx.1 p.1, max mx.2 p.2))

/-- `Viewport.extent()`: extend an empty `Extent` by the rotation-aware
unprojection of every vertex of `visiblePolygon()` except the repeated closing
one. Source: `Viewport.ts` lines 307–315. -/
def Viewport.extent (s : ViewportState) : Extent :=
  (Viewport.visiblePolygon s).dropLast.foldl
    (fun e p => Extent.extendSelf e (Viewport.unproject s p true)) none

/-- State of the legacy `Projection` class (`projection.ts`): translation and
scale only, no rotation. -/
structure ProjectionState where
  x : ℝ
  y : ℝ
  k : ℝ

/-- Legacy `Projection` constructor (`projection.ts`), with its `||`-defaults. -/
def mkProjection (x y k : Option ℝ) : ProjectionState :=
  { x := jsOr x 0, y := jsOr y 0, k := jsOr k (256 / Real.pi) }

/-- Legacy `Projection.project(loc)`: identical Mercator math but with no
latitude clamp. Source: `projection.ts` lines 51–57. -/
def Projection.project (p : ProjectionState) (loc : Vec2) : Vec2 :=
  let lambda := loc.1 * Real.pi / 180
  let phi := loc.2 * Real.pi / 180
  let mercX := lambda
  let mercY := Real.log (Real.tan ((Real.pi / 2 + phi) / 2))
  (mercX * p.k + p.x, p.y - mercY * p.k)

/-- Legacy `Projection.invert(point)`: no clamp on the intermediate Mercator y.
Source: `projection.ts` lines 70–76. -/
def Projection.invert (p : ProjectionState) (point : Vec2) : Vec2 :=
  let mercX := (point.1 - p.x) / p.k
  let mercY := (p.y - point.2) / p.k
  let phi := 2 * Real.arctan (Real.exp mercY) - Real.pi / 2
  (mercX * 180 / Real.pi, phi * 180 / Real.pi)

/-! ### Basic properties of the modelled helpers and constants -/

lemma TAU_pos : 0 < TAU := by unfold TAU; positivity

lemma MIN_K_pos : 0 < MIN_K := by unfold MIN_K TAU; positivity

lemma MIN_K_le_MAX_K : MIN_K ≤ MAX_K := by
  unfold MIN_K MAX_K TAU
  have h := Real.pi_pos
  rw [div_le_div_iff (by positivity) (by positivity)]
  nlinarith

lemma numClamp_le_right (v lo hi : ℝ) : numClamp v lo hi ≤ hi := min_le_right _ _

lemma left_le_numClamp (v : ℝ) {lo hi : ℝ} (h : lo ≤ hi) : lo ≤ numClamp v lo hi :=
  le_min (le_max_right _ _) h

lemma numClamp_le_max_left (v lo hi : ℝ) : numClamp v lo hi ≤ max v lo := min_le_left _ _

lemma numClamp_eq_self {v lo hi : ℝ} (h1 : lo ≤ v) (h2 : v ≤ hi) : numClamp v lo hi = v := by
  unfold numClamp
  rw [max_eq_left h1, min_eq_left h2]

lemma numClamp_eq_left {v lo hi : ℝ} (h1 : v ≤ lo) (h2 : lo ≤ hi) : numClamp v lo hi = lo := by
  unfold numClamp
  rw [max_eq_right h1, min_eq_left h2]

lemma numWrap_nonneg_lt {v lo hi : ℝ} (h : lo < hi) :
    lo ≤ numWrap v lo hi ∧ numWrap v lo hi < hi := by
  unfold numWrap
  have h1 := Int.fract_nonneg ((v - lo) / (hi - lo))
  have h2 := Int.fract_lt_one ((v - lo) / (hi - lo))
  constructor
  · nlinarith
  · nlinarith

lemma numWrap_self_right {lo hi : ℝ} (h : lo < hi) : numWrap hi lo hi = lo := by
  unfold numWrap
  rw [div_self (by linarith)]
  simp [Int.fract_one]

lemma k_default_mem : MIN_K ≤ 256 / Real.pi ∧ 256 / Real.pi ≤ MAX_K := by
  have h := Real.pi_pos
  unfold MIN_K MAX_K TAU
  constructor
  · rw [div_le_div_iff (by positivity) (by positivity)]; nlinarith
  · rw [div_le_div_iff (by positivity) (by positivity)]; nlinarith

lemma MAX_PHI_lt_half_pi : MAX_PHI < HALF_PI := by
  unfold MAX_PHI HALF_PI
  have h := Real.arctan_lt_pi_div_two (Real.exp Real.pi)
  linarith

lemma MAX_PHI_pos : 0 < MAX_PHI := by
  unfold MAX_PHI HALF_PI
  have h1 : Real.arctan 1 < Real.arctan (Real.exp Real.pi) :=
    Real.arctan_strictMono (by
      have := Real.add_one_le_exp Real.pi
      have := Real.pi_pos
      linarith)
  rw [Real.arctan_one] at h1
  linarith

lemma MIN_PHI_eq_neg_MAX_PHI : MIN_PHI = -MAX_PHI := by
  unfold MIN_PHI MAX_PHI HALF_PI
  have h : Real.arctan (Real.exp Real.pi)⁻¹ = Real.pi / 2 - Real.arctan (Real.exp Real.pi) :=
    Real.arctan_inv_of_pos (Real.exp_pos _)
  rw [← Real.exp_neg] at h
  rw [h]
  ring

lemma MIN_PHI_neg : MIN_PHI < 0 := by
  rw [MIN_PHI_eq_neg_MAX_PHI]
  linarith [MAX_PHI_pos]

lemma neg_half_pi_lt_MIN_PHI : -HALF_PI < MIN_PHI := by
  rw [MIN_PHI_eq_neg_MAX_PHI]
  linarith [MAX_PHI_lt_half_pi]

lemma MIN_PHI_le_MAX_PHI : MIN_PHI ≤ MAX_PHI := by
  linarith [MIN_PHI_neg, MAX_PHI_pos]

/-! ### Mercator-y facts -/

lemma tan_arg_pos {phi : ℝ} (h1 : -HALF_PI < phi) (h2 : phi < HALF_PI) :
    0 < Real.tan ((HALF_PI + phi) / 2) := by
  unfold HALF_PI at h1 h2 ⊢
  apply Real.tan_pos_of_pos_of_lt_pi_div_two
  · linarith
  · linarith

lemma mercatorY_inv_exp (m : ℝ) : mercatorY (2 * Real.arctan (Real.exp m) - HALF_PI) = m := by
  unfold mercatorY
  have h : (HALF_PI + (2 * Real.arctan (Real.exp m) - HALF_PI)) / 2 = Real.arctan (Real.exp m) := by
    ring
  rw [h, Real.tan_arctan, Real.log_exp]

lemma mercatorY_MAX_PHI : mercatorY MAX_PHI = Real.pi := by
  unfold MAX_PHI
  exact mercatorY_inv_exp Real.pi

lemma mercatorY_MIN_PHI : mercatorY MIN_PHI = -Real.pi := by
  unfold MIN_PHI
  exact mercatorY_inv_exp (-Real.pi)

lemma mercatorY_left_inverse {phi : ℝ} (h1 : -HALF_PI < phi) (h2 : phi < HALF_PI) :
    2 * Real.arctan (Real.exp (mercatorY phi)) - HALF_PI = phi := by
  unfold mercatorY
  rw [Real.exp_log (tan_arg_pos h1 h2)]
  unfold HALF_PI at h1 h2 ⊢
  rw [Real.arctan_tan (by linarith) (by linarith)]
  ring

lemma mercatorY_le_mercatorY {a b : ℝ} (h1 : -HALF_PI < a) (hab : a ≤ b) (h2 : b < HALF_PI) :
    mercatorY a ≤ mercatorY b := by
  rcases eq_or_lt_of_le hab with h | h
  · rw [h]
  · unfold mercatorY
    have hta := tan_arg_pos h1 (lt_of_le_of_lt hab h2)
    have htab : Real.tan ((HALF_PI + a) / 2) < Real.tan ((HALF_PI + b) / 2) := by
      unfold HALF_PI at h1 h2 ⊢
      apply Real.tan_lt_tan_of_lt_of_lt_pi_div_two (by linarith) (by linarith)
      linarith
    exact le_of_lt (Real.log_lt_log hta htab)

lemma mercatorY_lt_mercatorY {a b : ℝ} (h1 : -HALF_PI < a) (hab : a < b) (h2 : b < HALF_PI) :
    mercatorY a < mercatorY b := by
  unfold mercatorY
  have hta := tan_arg_pos h1 (lt_trans hab h2)
  have htab : Real.tan ((HALF_PI + a) / 2) < Real.tan ((HALF_PI + b) / 2) := by
    unfold HALF_PI at h1 h2 ⊢
    apply Real.tan_lt_tan_of_lt_of_lt_pi_div_two (by linarith) (by linarith)
    linarith
  exact Real.log_lt_log hta htab

lemma mercatorY_neg_eq (phi : ℝ) : mercatorY (-phi) = -mercatorY phi := by
  unfold mercatorY
  have h : (HALF_PI + -phi) / 2 = Real.pi / 2 - (HALF_PI + phi) / 2 := by
    unfold HALF_PI; ring
  rw [h, Real.tan_pi_div_two_sub, Real.log_inv]

lemma mercatorY_mem_of_clamped (v : ℝ) :
    -Real.pi ≤ mercatorY (numClamp v MIN_PHI MAX_PHI) ∧
    mercatorY (numClamp v MIN_PHI MAX_PHI) ≤ Real.pi := by
  have hlo := left_le_numClamp v MIN_PHI_le_MAX_PHI
  have hhi := numClamp_le_right v MIN_PHI MAX_PHI
  constructor
  · rw [← mercatorY_MIN_PHI]
    exact mercatorY_le_mercatorY neg_half_pi_lt_MIN_PHI hlo
      (lt_of_le_of_lt hhi MAX_PHI_lt_half_pi)
  · rw [← mercatorY_MAX_PHI]
    exact mercatorY_le_mercatorY (lt_of_lt_of_le neg_half_pi_lt_MIN_PHI hlo) hhi
      MAX_PHI_lt_half_pi

lemma vecRotate_inverse (p : Vec2) (a : ℝ) (c : Vec2) :
    vecRotate (vecRotate p a c) (-a) c = p := by
  unfold vecRotate
  have hsc : Real.sin a ^ 2 + Real.cos a ^ 2 = 1 := Real.sin_sq_add_cos_sq a
  rw [Real.sin_neg, Real.cos_neg]
  apply Prod.ext
  · show _ = p.1
    linear_combination (p.1 - c.1) * hsc
  · show _ = p.2
    linear_combination (p.2 - c.2) * hsc

/-! ### Claims C5, C6, C7 -/

/-- C5 counterexample: constructing a Viewport with a supplied scale of exactly 0
stores the default `256/π` (the JavaScript `||` treats 0 as falsy and substitutes
the default before clamping), not `MIN_K`. -/
theorem c5_counterexample :
    (mkViewport none none (some 0) none none).transform.k = 256 / Real.pi ∧
    (256 : ℝ) / Real.pi ≠ MIN_K := by
  constructor
  · show numClamp (jsOr (some 0) (256 / Real.pi)) MIN_K MAX_K = 256 / Real.pi
    have h : jsOr (some 0) (256 / Real.pi) = 256 / Real.pi := by simp [jsOr]
    rw [h, numClamp_eq_self k_default_mem.1 k_default_mem.2]
  · intro h
    unfold MIN_K TAU at h
    rw [div_eq_div_iff (by positivity) (by positivity)] at h
    nlinarith [Real.pi_pos]

/-- C5 (amended): the `scale` setter clamps any nonpositive scale to exactly
`MIN_K`; at construction a supplied *nonzero* scale is clamped to
`[MIN_K, MAX_K]`, but a supplied scale of exactly 0 falls back to the default
`256/π` through the `||`-default; a supplied rotation is wrapped into
`[0, TAU)`, with `TAU` itself wrapping to exactly 0. -/
theorem c5_amended (s : ViewportState) (v ρ : ℝ) :
    (v ≤ 0 → (Viewport.scaleSet s v).transform.k = MIN_K) ∧
    ((mkViewport none none (some v) none none).transform.k =
      if v = 0 then 256 / Real.pi else numClamp v MIN_K MAX_K) ∧
    (mkViewport none none none (some ρ) none).transform.r = numWrap ρ 0 TAU ∧
    0 ≤ numWrap ρ 0 TAU ∧ numWrap ρ 0 TAU < TAU ∧ numWrap TAU 0 TAU = 0 := by
  refine ⟨?_, ?_, ?_, ?_, ?_, ?_⟩
  · intro hv
    show numClamp v MIN_K MAX_K = MIN_K
    exact numClamp_eq_left (le_trans hv (le_of_lt MIN_K_pos)) MIN_K_le_MAX_K
  · show numClamp (if v = 0 then 256 / Real.pi else v) MIN_K MAX_K =
      if v = 0 then 256 / Real.pi else numClamp v MIN_K MAX_K
    split_ifs with hv
    · exact numClamp_eq_self k_default_mem.1 k_default_mem.2
    · rfl
  · show numWrap (if ρ = 0 then 0 else ρ) 0 TAU = numWrap ρ 0 TAU
    split_ifs with hρ
    · rw [hρ]
    · rfl
  · exact (numWrap_nonneg_lt TAU_pos).1
  · exact (numWrap_nonneg_lt TAU_pos).2
  · exact numWrap_self_right TAU_pos

/-- C5 witness: the amended theorem's scale clause at the concrete input `-1`. -/
theorem c5_witness :
    ((-1 : ℝ) ≤ 0) ∧
    (Viewport.scaleSet (mkViewport none none none none none) (-1)).transform.k = MIN_K :=
  ⟨by norm_num,
   (c5_amended (mkViewport none none none none none) (-1) 0).1 (by norm_num)⟩

lemma vecCeil_half_example : vecCeil (10.5, 20.5) = (11, 21) := by
  unfold vecCeil
  have h1 : ⌈(10.5 : ℝ)⌉ = (11 : ℤ) := by
    rw [Int.ceil_eq_iff] <;> norm_num
  have h2 : ⌈(20.5 : ℝ)⌉ = (21 : ℤ) := by
    rw [Int.ceil_eq_iff] <;> norm_num
  rw [Prod.ext_iff]
  refine ⟨?_, ?_⟩
  · show ((⌈(10.5 : ℝ)⌉ : ℤ) : ℝ) = 11
    rw [h1]; norm_num
  · show ((⌈(20.5 : ℝ)⌉ : ℤ) : ℝ) = 21
    rw [h2]; norm_num

/-- C6: the claim says dimensions are ceiling-rounded on *every* set, including at
construction; the constructor in fact stores a supplied dimensions pair verbatim
(`dimensions || [0, 0]`, with no `vecCeil`), while the `dimensions` setter does
ceil. At the failing input `[10.5, 20.5]` construction stores `[10.5, 20.5]`
(≠ `vecCeil` = `[11, 21]`), whereas the setter stores `[11, 21]`. -/
theorem c6_constructor_skips_ceil :
    (mkViewport none none none none (some (10.5, 20.5))).dimensions = (10.5, 20.5) ∧
    vecCeil (10.5, 20.5) = (11, 21) ∧
    ((10.5 : ℝ), (20.5 : ℝ)) ≠ ((11 : ℝ), (21 : ℝ)) ∧
    (Viewport.dimensionsSet (mkViewport none none none none none)
      (10.5, 20.5)).dimensions = (11, 21) := by
  refine ⟨rfl, vecCeil_half_example, ?_, ?_⟩
  · intro h
    have := congrArg Prod.fst h
    norm_num at this
  · show vecCeil (10.5, 20.5) = (11, 21)
    exact vecCeil_half_example

/-- C7: `transform()` with a partial object updates exactly the fields present —
each normalized independently (`k` clamped, `r` wrapped), absent fields keep
their previous values (all fields absent leaves the state unchanged) — and the
no-argument form returns the current transform value (the source returns an
`Object.assign` copy; in this value-semantics embedding, mutating a returned
value cannot affect the state). -/
theorem c7_transform_partial_merge (s : ViewportState) (v : ℝ) (ox oy ok orr : Option ℝ) :
    Viewport.transformSet s none none none none = s ∧
    (Viewport.transformSet s (some v) oy ok orr).transform.x = v ∧
    (Viewport.transformSet s ox (some v) ok orr).transform.y = v ∧
    (Viewport.transformSet s ox oy (some v) orr).transform.k = numClamp v MIN_K MAX_K ∧
    (Viewport.transformSet s ox oy ok (some v)).transform.r = numWrap v 0 TAU ∧
    (Viewport.transformSet s none oy ok orr).transform.x = s.transform.x ∧
    (Viewport.transformSet s ox none ok orr).transform.y = s.transform.y ∧
    (Viewport.transformSet s ox oy none orr).transform.k = s.transform.k ∧
    (Viewport.transformSet s ox oy ok none).transform.r = s.transform.r ∧
    (Viewport.transformSet s ox oy ok orr).dimensions = s.dimensions ∧
    Viewport.transformGet s = s.transform :=
  ⟨rfl, rfl, rfl, rfl, rfl, rfl, rfl, rfl, rfl, rfl, rfl⟩

/-! ### Degree/radian conversion facts -/

lemma DEG2RAD_pos : 0 < DEG2RAD := by unfold DEG2RAD; positivity

lemma RAD2DEG_pos : 0 < RAD2DEG := by unfold RAD2DEG; positivity

lemma DEG2RAD_mul_RAD2DEG : DEG2RAD * RAD2DEG = 1 := by
  unfold DEG2RAD RAD2DEG
  field_simp

lemma RAD2DEG_mul_DEG2RAD : RAD2DEG * DEG2RAD = 1 := by
  rw [mul_comm]; exact DEG2RAD_mul_RAD2DEG

/-! ### Claim C9 -/

/-- C9: for every Viewport state, screen point and includeRotation flag, the
latitude returned by `unproject`, converted to radians, lies within
`[2·atan(exp(−π)) − π/2, 2·atan(exp(π)) − π/2]` (≈ ±85.051°), and in particular
the returned degree value lies within `[−90, 90]`, because the intermediate
Mercator y is clamped to `[−π, π]` before inversion. -/
theorem c9_unproject_latitude_bounded (s : ViewportState) (p : Vec2) (incl : Bool) :
    2 * Real.arctan (Real.exp (-Real.pi)) - Real.pi / 2 ≤
      (Viewport.unproject s p incl).2 * DEG2RAD ∧
    (Viewport.unproject s p incl).2 * DEG2RAD ≤
      2 * Real.arctan (Real.exp Real.pi) - Real.pi / 2 ∧
    -90 ≤ (Viewport.unproject s p incl).2 ∧ (Viewport.unproject s p incl).2 ≤ 90 := by
  have hsnd : (Viewport.unproject s p incl).2 =
      (2 * Real.arctan (Real.exp (numClamp
        ((s.transform.y - (if incl ∧ s.transform.r ≠ 0 then
            vecRotate p (-s.transform.r) (vecScale s.dimensions 0.5) else p).2) /
          s.transform.k) (-Real.pi) Real.pi)) - HALF_PI) * RAD2DEG := rfl
  set m : ℝ := numClamp
    ((s.transform.y - (if incl ∧ s.transform.r ≠ 0 then
        vecRotate p (-s.transform.r) (vecScale s.dimensions 0.5) else p).2) /
      s.transform.k) (-Real.pi) Real.pi with hm
  have hm1 : -Real.pi ≤ m := left_le_numClamp _ (by linarith [Real.pi_pos])
  have hm2 : m ≤ Real.pi := numClamp_le_right _ _ _
  have hphi1 : 2 * Real.arctan (Real.exp (-Real.pi)) - Real.pi / 2 ≤
      2 * Real.arctan (Real.exp m) - Real.pi / 2 := by
    have := Real.arctan_strictMono.monotone (Real.exp_le_exp.mpr hm1)
    linarith
  have hphi2 : 2 * Real.arctan (Real.exp m) - Real.pi / 2 ≤
      2 * Real.arctan (Real.exp Real.pi) - Real.pi / 2 := by
    have := Real.arctan_strictMono.monotone (Real.exp_le_exp.mpr hm2)
    linarith
  have hunit : RAD2DEG * DEG2RAD = 1 := RAD2DEG_mul_DEG2RAD
  have hval : (Viewport.unproject s p incl).2 * DEG2RAD =
      2 * Real.arctan (Real.exp m) - HALF_PI := by
    rw [hsnd, mul_assoc, hunit, mul_one]
  have hMINlt : -HALF_PI < 2 * Real.arctan (Real.exp m) - HALF_PI := by
    have h1 : -(Real.pi / 2) < Real.arctan (Real.exp m) := Real.neg_pi_div_two_lt_arctan _
    have h2 : 0 < Real.arctan (Real.exp m) := by
      rw [← Real.arctan_zero]
      exact Real.arctan_strictMono (Real.exp_pos m)
    unfold HALF_PI
    linarith
  have hMAXlt : 2 * Real.arctan (Real.exp m) - HALF_PI < HALF_PI := by
    have := Real.arctan_lt_pi_div_two (Real.exp m)
    unfold HALF_PI
    linarith
  refine ⟨?_, ?_, ?_, ?_⟩
  · rw [hval]; unfold HALF_PI; linarith [hphi1]
  · rw [hval]; unfold HALF_PI; linarith [hphi2]
  · have h90 : (-90 : ℝ) = -HALF_PI * RAD2DEG := by
      unfold HALF_PI RAD2DEG
      field_simp
      ring
    rw [hsnd, h90]
    exact mul_le_mul_of_nonneg_right (le_of_lt hMINlt) (le_of_lt RAD2DEG_pos)
  · have h90 : (90 : ℝ) = HALF_PI * RAD2DEG := by
      unfold HALF_PI RAD2DEG
      field_simp
      ring
    rw [hsnd, h90]
    exact mul_le_mul_of_nonneg_right (le_of_lt hMAXlt) (le_of_lt RAD2DEG_pos)

/-! ### Claim C4 -/

lemma vecRotate_dist_sq (p : Vec2) (a : ℝ) (c : Vec2) :
    ((vecRotate p a c).1 - c.1) ^ 2 + ((vecRotate p a c).2 - c.2) ^ 2 =
      (p.1 - c.1) ^ 2 + (p.2 - c.2) ^ 2 := by
  unfold vecRotate
  have hsc : Real.sin a ^ 2 + Real.cos a ^ 2 = 1 := Real.sin_sq_add_cos_sq a
  show (_ + c.1 - c.1) ^ 2 + (_ + c.2 - c.2) ^ 2 = _
  linear_combination ((p.1 - c.1) ^ 2 + (p.2 - c.2) ^ 2) * hsc

/-- C4: totality guards of the projection pipeline. For every state and input:
the latitude fed to the Mercator formula is clamped into `[MIN_PHI, MAX_PHI]`,
so the `log` argument `tan((π/2+φ)/2)` is strictly positive (the formula never
leaves the logarithm's domain, where IEEE arithmetic would produce ±∞/NaN); the
resulting Mercator y lies in `[−π, π]`, bounding the projected y-offset by
`π·|k|`; the x component is the finite affine value; rotation preserves the
squared distance to the viewport center, so the rotated output is equally
bounded; and `unproject`'s intermediate Mercator y is clamped into `[−π, π]`
(bounding the `exp` argument). No case raises an error: every operation is
total. -/
theorem c4_projection_totality_guards (s : ViewportState) (loc p : Vec2) (incl : Bool) :
    0 < Real.tan ((HALF_PI + numClamp (loc.2 * DEG2RAD) MIN_PHI MAX_PHI) / 2) ∧
    |mercatorY (numClamp (loc.2 * DEG2RAD) MIN_PHI MAX_PHI)| ≤ Real.pi ∧
    |(Viewport.project s loc false).2 - s.transform.y| ≤ Real.pi * |s.transform.k| ∧
    (Viewport.project s loc false).1 = loc.1 * DEG2RAD * s.transform.k + s.transform.x ∧
    ((Viewport.project s loc incl).1 - (Viewport.center s).1) ^ 2 +
        ((Viewport.project s loc incl).2 - (Viewport.center s).2) ^ 2 =
      ((Viewport.project s loc false).1 - (Viewport.center s).1) ^ 2 +
        ((Viewport.project s loc false).2 - (Viewport.center s).2) ^ 2 ∧
    -Real.pi ≤ numClamp ((s.transform.y - p.2) / s.transform.k) (-Real.pi) Real.pi ∧
    numClamp ((s.transform.y - p.2) / s.transform.k) (-Real.pi) Real.pi ≤ Real.pi := by
  have hclo := left_le_numClamp (loc.2 * DEG2RAD) MIN_PHI_le_MAX_PHI
  have hchi := numClamp_le_right (loc.2 * DEG2RAD) MIN_PHI MAX_PHI
  have hmem := mercatorY_mem_of_clamped (loc.2 * DEG2RAD)
  refine ⟨?_, ?_, ?_, rfl, ?_, ?_, ?_⟩
  · exact tan_arg_pos (lt_of_lt_of_le neg_half_pi_lt_MIN_PHI hclo)
      (lt_of_le_of_lt hchi MAX_PHI_lt_half_pi)
  · exact abs_le.mpr hmem
  · have hsnd : (Viewport.project s loc false).2 - s.transform.y =
        -(mercatorY (numClamp (loc.2 * DEG2RAD) MIN_PHI MAX_PHI) * s.transform.k) := by
      show s.transform.y - _ * s.transform.k - s.transform.y = _
      ring
    rw [hsnd, abs_neg, abs_mul]
    exact mul_le_mul_of_nonneg_right (abs_le.mpr hmem) (abs_nonneg _)
  · simp only [Viewport.project]
    by_cases hc : (incl : Prop) ∧ s.transform.r ≠ 0
    · rw [if_pos hc, if_neg (show ¬((false : Bool) = true ∧ s.transform.r ≠ 0) by simp)]
      exact vecRotate_dist_sq _ _ (Viewport.center s)
    · rw [if_neg hc, if_neg (show ¬((false : Bool) = true ∧ s.transform.r ≠ 0) by simp)]
  · exact left_le_numClamp _ (by linarith [Real.pi_pos])
  · exact numClamp_le_right _ _ _

/-! ### Claim C3 -/

/-- C3: for every location whose latitude (in radians) lies strictly inside
`(MIN_PHI, MAX_PHI)` and every Viewport with a valid transform (`k` within
`[MIN_K, MAX_K]`), `unproject(project(loc))` returns exactly `loc` in this
real-number model (the source's equality up to floating-point tolerance); the
same holds with `includeRotation = true` on both calls, the rotation being
unchanged in between. -/
theorem c3_roundtrip (s : ViewportState) (loc : Vec2) (incl : Bool)
    (hk1 : MIN_K ≤ s.transform.k) (hk2 : s.transform.k ≤ MAX_K)
    (hlat1 : MIN_PHI < loc.2 * DEG2RAD) (hlat2 : loc.2 * DEG2RAD < MAX_PHI) :
    Viewport.unproject s (Viewport.project s loc incl) incl = loc := by
  have hk0 : s.transform.k ≠ 0 := ne_of_gt (lt_of_lt_of_le MIN_K_pos hk1)
  have hclamp : numClamp (loc.2 * DEG2RAD) MIN_PHI MAX_PHI = loc.2 * DEG2RAD :=
    numClamp_eq_self (le_of_lt hlat1) (le_of_lt hlat2)
  have hphi1 : -HALF_PI < loc.2 * DEG2RAD := lt_trans neg_half_pi_lt_MIN_PHI hlat1
  have hphi2 : loc.2 * DEG2RAD < HALF_PI := lt_trans hlat2 MAX_PHI_lt_half_pi
  have hm1 : -Real.pi < mercatorY (loc.2 * DEG2RAD) := by
    rw [← mercatorY_MIN_PHI]
    exact mercatorY_lt_mercatorY neg_half_pi_lt_MIN_PHI hlat1 hphi2
  have hm2 : mercatorY (loc.2 * DEG2RAD) < Real.pi := by
    rw [← mercatorY_MAX_PHI]
    exact mercatorY_lt_mercatorY hphi1 hlat2 MAX_PHI_lt_half_pi
  have e1 : (loc.1 * DEG2RAD * s.transform.k + s.transform.x - s.transform.x) /
      s.transform.k = loc.1 * DEG2RAD := by
    field_simp
  have e2 : (s.transform.y -
      (s.transform.y - mercatorY (loc.2 * DEG2RAD) * s.transform.k)) /
      s.transform.k = mercatorY (loc.2 * DEG2RAD) := by
    field_simp
  have e3 : loc.1 * DEG2RAD * RAD2DEG = loc.1 := by
    rw [mul_assoc, DEG2RAD_mul_RAD2DEG, mul_one]
  have e4 : loc.2 * DEG2RAD * RAD2DEG = loc.2 := by
    rw [mul_assoc, DEG2RAD_mul_RAD2DEG, mul_one]
  simp only [Viewport.project, Viewport.unproject, hclamp]
  by_cases hc : (incl : Prop) ∧ s.transform.r ≠ 0
  · rw [if_pos hc, if_pos hc, vecRotate_inverse, e1, e2,
      numClamp_eq_self (le_of_lt hm1) (le_of_lt hm2),
      mercatorY_left_inverse hphi1 hphi2]
    exact Prod.ext e3 e4
  · rw [if_neg hc, if_neg hc, e1, e2,
      numClamp_eq_self (le_of_lt hm1) (le_of_lt hm2),
      mercatorY_left_inverse hphi1 hphi2]
    exact Prod.ext e3 e4

/-- C3 witness: the round trip at the default Viewport and `loc = (0, 0)` with
`includeRotation = true`, every hypothesis discharged concretely. -/
theorem c3_witness :
    Viewport.unproject (mkViewport none none none none none)
      (Viewport.project (mkViewport none none none none none) (0, 0) true) true = (0, 0) :=
  c3_roundtrip (mkViewport none none none none none) (0, 0) true
    (left_le_numClamp _ MIN_K_le_MAX_K) (numClamp_le_right _ _ _)
    (by simpa using MIN_PHI_neg) (by simpa using MAX_PHI_pos)

/-! ### Claim C10 -/

lemma default_viewport_k : (mkViewport none none none none none).transform.k = 256 / Real.pi := by
  show numClamp (256 / Real.pi) MIN_K MAX_K = 256 / Real.pi
  exact numClamp_eq_self k_default_mem.1 k_default_mem.2

lemma project_false_eq (s : ViewportState) (loc : Vec2) :
    Viewport.project s loc false =
      (loc.1 * DEG2RAD * s.transform.k + s.transform.x,
       s.transform.y - mercatorY (numClamp (loc.2 * DEG2RAD) MIN_PHI MAX_PHI) * s.transform.k) := by
  simp only [Viewport.project]
  rw [if_neg (show ¬((false : Bool) = true ∧ s.transform.r ≠ 0) by simp)]

lemma legacy_project_snd (lat : ℝ) :
    (Projection.project (mkProjection none none none) (0, lat)).2 =
      0 - Real.log (Real.tan ((Real.pi / 2 + lat * Real.pi / 180) / 2)) * (256 / Real.pi) := rfl

/-- C10: the legacy `Projection.project` applies no latitude clamp: at latitude
exactly −90° the argument of its logarithm is `tan(0) = 0`, outside the
logarithm's domain (IEEE: `log 0 = −∞`, so the y component is `+∞`), and indeed
its y component grows without bound as the latitude decreases to −90°; on the
same input, `Viewport.project` clamps and returns the finite point `(0, 256)`. -/
theorem c10_legacy_pole_divergence :
    Real.tan ((Real.pi / 2 + (-90 : ℝ) * Real.pi / 180) / 2) = 0 ∧
    Tendsto (fun lat : ℝ => (Projection.project (mkProjection none none none) (0, lat)).2)
      (nhdsWithin (-90) (Set.Ioi (-90))) atTop ∧
    Viewport.project (mkViewport none none none none none) (0, -90) false = (0, 256) := by
  have harg : ((Real.pi / 2 + (-90 : ℝ) * Real.pi / 180) / 2) = 0 := by ring
  refine ⟨by rw [harg, Real.tan_zero], ?_, ?_⟩
  · -- divergence of the unclamped Mercator y
    have h1 : Tendsto (fun lat : ℝ => (Real.pi / 2 + lat * Real.pi / 180) / 2)
        (nhdsWithin (-90) (Set.Ioi (-90))) (nhdsWithin 0 (Set.Ioi 0)) := by
      apply tendsto_nhdsWithin_of_tendsto_nhds_of_eventually_within
      · have hcont : Continuous fun lat : ℝ => (Real.pi / 2 + lat * Real.pi / 180) / 2 := by
          continuity
        have h0 : Tendsto (fun lat : ℝ => (Real.pi / 2 + lat * Real.pi / 180) / 2)
            (nhdsWithin (-90) (Set.Ioi (-90)))
            (nhds ((Real.pi / 2 + (-90 : ℝ) * Real.pi / 180) / 2)) :=
          (hcont.tendsto (-90)).mono_left nhdsWithin_le_nhds
        rwa [show (Real.pi / 2 + (-90 : ℝ) * Real.pi / 180) / 2 = 0 by ring] at h0
      · filter_upwards [self_mem_nhdsWithin] with lat hlat
        have hlat' : (-90 : ℝ) < lat := hlat
        have hp : (0 : ℝ) < (lat + 90) * Real.pi :=
          mul_pos (by linarith) Real.pi_pos
        show (0 : ℝ) < (Real.pi / 2 + lat * Real.pi / 180) / 2
        nlinarith [hp]
    have h2 : Tendsto Real.tan (nhdsWithin 0 (Set.Ioi 0)) (nhdsWithin 0 (Set.Ioi 0)) := by
      apply tendsto_nhdsWithin_of_tendsto_nhds_of_eventually_within
      · have hcont : ContinuousAt Real.tan 0 :=
          Real.continuousAt_tan.mpr (by rw [Real.cos_zero]; norm_num)
        have h0 : Tendsto Real.tan (nhdsWithin 0 (Set.Ioi 0)) (nhds (Real.tan 0)) :=
          hcont.tendsto.mono_left nhdsWithin_le_nhds
        rwa [Real.tan_zero] at h0
      · have hIoo : Set.Ioo (0 : ℝ) 1 ∈ nhdsWithin (0 : ℝ) (Set.Ioi 0) :=
          Ioo_mem_nhdsWithin_Ioi (by constructor <;> norm_num)
        filter_upwards [hIoo] with x hx
        exact Real.tan_pos_of_pos_of_lt_pi_div_two hx.1
          (lt_trans hx.2 (by linarith [Real.pi_gt_three]))
    have h3 : Tendsto (fun lat : ℝ =>
        Real.log (Real.tan ((Real.pi / 2 + lat * Real.pi / 180) / 2)))
        (nhdsWithin (-90) (Set.Ioi (-90))) atBot :=
      Real.tendsto_log_nhdsWithin_zero_right.comp (h2.comp h1)
    have h4 : Tendsto (fun lat : ℝ =>
        Real.log (Real.tan ((Real.pi / 2 + lat * Real.pi / 180) / 2)) * (256 / Real.pi))
        (nhdsWithin (-90) (Set.Ioi (-90))) atBot :=
      h3.atBot_mul_const (by positivity)
    have h5 := tendsto_neg_atBot_atTop.comp h4
    apply h5.congr
    intro lat
    rw [legacy_project_snd]
    show -_ = _
    ring
  · -- Viewport.project clamps and stays finite
    have hc : numClamp ((-90 : ℝ) * DEG2RAD) MIN_PHI MAX_PHI = MIN_PHI := by
      apply numClamp_eq_left _ MIN_PHI_le_MAX_PHI
      have h9 : (-90 : ℝ) * DEG2RAD = -HALF_PI := by
        unfold DEG2RAD HALF_PI
        ring
      rw [h9]
      exact le_of_lt neg_half_pi_lt_MIN_PHI
    have hfst : (Viewport.project (mkViewport none none none none none) (0, -90) false).1 = 0 := by
      rw [project_false_eq]
      show (0 : ℝ) * DEG2RAD * _ + 0 = 0
      ring
    have hsnd : (Viewport.project (mkViewport none none none none none) (0, -90) false).2 = 256 := by
      rw [project_false_eq]
      show (0 : ℝ) - mercatorY (numClamp ((-90 : ℝ) * DEG2RAD) MIN_PHI MAX_PHI) *
        (mkViewport none none none none none).transform.k = 256
      rw [hc, mercatorY_MIN_PHI, default_viewport_k]
      field_simp
    exact Prod.ext hfst hsnd

/-! ### Claim C1 -/

/-- Width and height of the axis-aligned bounding box of a list of screen points. -/
def aabbDims : List Vec2 → Vec2
  | [] => (0, 0)
  | p :: ps =>
      ((ps.map Prod.fst).foldl max p.1 - (ps.map Prod.fst).foldl min p.1,
       (ps.map Prod.snd).foldl max p.2 - (ps.map Prod.snd).foldl min p.2)

/-- Euclidean length of the segment between two screen points. -/
def euclidDist (a b : Vec2) : ℝ := Real.sqrt ((a.1 - b.1) ^ 2 + (a.2 - b.2) ^ 2)

lemma numWrap_eq_self {v lo hi : ℝ} (h1 : lo ≤ v) (h2 : v < hi) : numWrap v lo hi = v := by
  unfold numWrap
  have hne : hi - lo ≠ 0 := ne_of_gt (by linarith)
  rw [Int.fract_eq_self.mpr ⟨div_nonneg (by linarith) (by linarith),
    (div_lt_one (by linarith)).mpr (by linarith)⟩]
  field_simp

lemma visiblePolygon_rot (s : ViewportState) (hr : s.transform.r ≠ 0) :
    Viewport.visiblePolygon s =
      [(s.dimensions.1 * |Real.sin s.transform.r| * |Real.sin s.transform.r|,
        -(s.dimensions.1 * |Real.sin s.transform.r| * |Real.cos s.transform.r|)),
       (-(s.dimensions.2 * |Real.cos s.transform.r| * |Real.sin s.transform.r|),
        s.dimensions.2 * |Real.cos s.transform.r| * |Real.cos s.transform.r|),
       (s.dimensions.1 - s.dimensions.1 * |Real.sin s.transform.r| * |Real.sin s.transform.r|,
        s.dimensions.2 + s.dimensions.1 * |Real.sin s.transform.r| * |Real.cos s.transform.r|),
       (s.dimensions.1 + s.dimensions.2 * |Real.cos s.transform.r| * |Real.sin s.transform.r|,
        s.dimensions.2 - s.dimensions.2 * |Real.cos s.transform.r| * |Real.cos s.transform.r|),
       (s.dimensions.1 * |Real.sin s.transform.r| * |Real.sin s.transform.r|,
        -(s.dimensions.1 * |Real.sin s.transform.r| * |Real.cos s.transform.r|))] := by
  simp only [Viewport.visiblePolygon]
  rw [if_pos hr]

lemma visiblePolygon_zero (s : ViewportState) (hr : s.transform.r = 0) :
    Viewport.visiblePolygon s =
      [(0, 0), (0, s.dimensions.2), (s.dimensions.1, s.dimensions.2),
       (0, s.dimensions.1), (0, 0)] := by
  simp only [Viewport.visiblePolygon]
  rw [if_neg (by rw [hr]; simp)]

lemma visibleDimensions_rot (s : ViewportState) (hr : s.transform.r ≠ 0) :
    Viewport.visibleDimensions s =
      vecCeil (s.dimensions.1 * |Real.cos s.transform.r| + s.dimensions.2 * |Real.sin s.transform.r|,
        s.dimensions.2 * |Real.cos s.transform.r| + s.dimensions.1 * |Real.sin s.transform.r|) := by
  simp only [Viewport.visibleDimensions]
  rw [if_pos hr]

lemma visibleDimensions_zero (s : ViewportState) (hr : s.transform.r = 0) :
    Viewport.visibleDimensions s = (s.dimensions.1, s.dimensions.2) := by
  simp only [Viewport.visibleDimensions]
  rw [if_neg (by rw [hr]; simp)]

/-- C1 counterexample: for the Viewport with dimensions `[800, 600]` and rotation
`π/2`, the axis-aligned bounding box of `visiblePolygon()` is `[800, 600]` (the
quarter-turned cover rectangle coincides with the screen rectangle), while
`visibleDimensions()` returns the swapped pair `[600, 800]` — with or without
ceiling-rounding of the bounding box, the claimed equality fails. -/
theorem c1_counterexample :
    vecCeil (aabbDims (Viewport.visiblePolygon
        (mkViewport none none none (some (Real.pi / 2)) (some (800, 600))))) ≠
      Viewport.visibleDimensions
        (mkViewport none none none (some (Real.pi / 2)) (some (800, 600))) ∧
    aabbDims (Viewport.visiblePolygon
        (mkViewport none none none (some (Real.pi / 2)) (some (800, 600)))) ≠
      Viewport.visibleDimensions
        (mkViewport none none none (some (Real.pi / 2)) (some (800, 600))) := by
  have hr : (mkViewport none none none (some (Real.pi / 2)) (some (800, 600))).transform.r
      = Real.pi / 2 := by
    show numWrap (jsOr (some (Real.pi / 2)) 0) 0 TAU = Real.pi / 2
    have hj : jsOr (some (Real.pi / 2)) 0 = Real.pi / 2 := by
      show (if (Real.pi / 2 : ℝ) = 0 then (0 : ℝ) else Real.pi / 2) = Real.pi / 2
      rw [if_neg (ne_of_gt (by positivity : (0 : ℝ) < Real.pi / 2))]
    rw [hj]
    exact numWrap_eq_self (by positivity) (by unfold TAU; linarith [Real.pi_pos])
  have hrne : (mkViewport none none none (some (Real.pi / 2)) (some (800, 600))).transform.r ≠ 0 := by
    rw [hr]; positivity
  have hd1 : (mkViewport none none none (some (Real.pi / 2)) (some (800, 600))).dimensions.1
      = 800 := rfl
  have hd2 : (mkViewport none none none (some (Real.pi / 2)) (some (800, 600))).dimensions.2
      = 600 := rfl
  have hpoly : Viewport.visiblePolygon
      (mkViewport none none none (some (Real.pi / 2)) (some (800, 600))) =
      [(800, 0), (0, 0), (0, 600), (800, 600), (800, 0)] := by
    rw [visiblePolygon_rot _ hrne, hr, hd1, hd2,
      Real.sin_pi_div_two, Real.cos_pi_div_two, abs_one, abs_zero]
    norm_num
  have haabb : aabbDims (Viewport.visiblePolygon
      (mkViewport none none none (some (Real.pi / 2)) (some (800, 600)))) = (800, 600) := by
    rw [hpoly]
    simp only [aabbDims, List.map_cons, List.map_nil, List.foldl_cons, List.foldl_nil]
    norm_num
  have hvd : Viewport.visibleDimensions
      (mkViewport none none none (some (Real.pi / 2)) (some (800, 600))) = (600, 800) := by
    rw [visibleDimensions_rot _ hrne, hr, hd1, hd2,
      Real.sin_pi_div_two, Real.cos_pi_div_two, abs_one, abs_zero]
    norm_num
    unfold vecCeil
    rw [Prod.ext_iff]
    constructor
    · show ((⌈(600 : ℝ)⌉ : ℤ) : ℝ) = 600
      rw [show ((600 : ℝ)) = ((600 : ℤ) : ℝ) by norm_num, Int.ceil_intCast]
    · show ((⌈(800 : ℝ)⌉ : ℤ) : ℝ) = 800
      rw [show ((800 : ℝ)) = ((800 : ℤ) : ℝ) by norm_num, Int.ceil_intCast]
  constructor
  · rw [haabb, hvd]
    intro h
    have h1 := congrArg Prod.fst h
    have hceil : ((⌈(800 : ℝ)⌉ : ℤ) : ℝ) = 800 := by
      rw [show ((800 : ℝ)) = ((800 : ℤ) : ℝ) by norm_num, Int.ceil_intCast]
    unfold vecCeil at h1
    simp only at h1
    rw [hceil] at h1
    norm_num at h1
  · rw [haabb, hvd]
    intro h
    have h1 := congrArg Prod.fst h
    norm_num at h1

lemma aabb_rot_eval (w h S C : ℝ) (hw : 0 ≤ w) (hh : 0 ≤ h)
    (hS0 : 0 ≤ S) (hS1 : S ≤ 1) (hC0 : 0 ≤ C) (hC1 : C ≤ 1) :
    aabbDims [(w * S * S, -(w * S * C)), (-(h * C * S), h * C * C),
      (w - w * S * S, h + w * S * C), (w + h * C * S, h - h * C * C),
      (w * S * S, -(w * S * C))] =
      (w + 2 * (h * C * S), h + 2 * (w * S * C)) := by
  have hwSS0 : 0 ≤ w * S * S := mul_nonneg (mul_nonneg hw hS0) hS0
  have hwSC0 : 0 ≤ w * S * C := mul_nonneg (mul_nonneg hw hS0) hC0
  have hhCS0 : 0 ≤ h * C * S := mul_nonneg (mul_nonneg hh hC0) hS0
  have hhCC0 : 0 ≤ h * C * C := mul_nonneg (mul_nonneg hh hC0) hC0
  have hwSSle : w * S * S ≤ w := by
    nlinarith [mul_nonneg hw (mul_nonneg (sub_nonneg.mpr hS1) (by linarith : (0:ℝ) ≤ 1 + S))]
  have hhCCle : h * C * C ≤ h := by
    nlinarith [mul_nonneg hh (mul_nonneg (sub_nonneg.mpr hC1) (by linarith : (0:ℝ) ≤ 1 + C))]
  simp only [aabbDims, List.map_cons, List.map_nil, List.foldl_cons, List.foldl_nil]
  have hmaxx : max (max (max (max (w * S * S) (-(h * C * S))) (w - w * S * S))
      (w + h * C * S)) (w * S * S) = w + h * C * S := by
    apply le_antisymm
    · refine max_le (max_le (max_le (max_le ?_ ?_) ?_) le_rfl) ?_
      · linarith
      · linarith
      · linarith
      · linarith
    · exact le_max_of_le_left (le_max_right _ _)
  have hminx : min (min (min (min (w * S * S) (-(h * C * S))) (w - w * S * S))
      (w + h * C * S)) (w * S * S) = -(h * C * S) := by
    apply le_antisymm
    · exact min_le_of_left_le (min_le_of_left_le (min_le_of_left_le (min_le_right _ _)))
    · refine le_min (le_min (le_min (le_min ?_ le_rfl) ?_) ?_) ?_
      · linarith
      · linarith
      · linarith
      · linarith
  have hmaxy : max (max (max (max (-(w * S * C)) (h * C * C)) (h + w * S * C))
      (h - h * C * C)) (-(w * S * C)) = h + w * S * C := by
    apply le_antisymm
    · refine max_le (max_le (max_le (max_le ?_ ?_) le_rfl) ?_) ?_
      · linarith
      · linarith
      · linarith
      · linarith
    · exact le_max_of_le_left (le_max_of_le_left (le_max_right _ _))
  have hminy : min (min (min (min (-(w * S * C)) (h * C * C)) (h + w * S * C))
      (h - h * C * C)) (-(w * S * C)) = -(w * S * C) := by
    apply le_antisymm
    · exact min_le_right _ _
    · refine le_min (le_min (le_min (le_min le_rfl ?_) ?_) ?_) le_rfl
      · linarith
      · linarith
      · linarith
  rw [hmaxx, hminx, hmaxy, hminy, Prod.ext_iff]
  constructor
  · show w + h * C * S - -(h * C * S) = w + 2 * (h * C * S)
    ring
  · show h + w * S * C - -(w * S * C) = h + 2 * (w * S * C)
    ring

lemma aabb_zero_eval (w h : ℝ) (hw : 0 ≤ w) (hh : 0 ≤ h) :
    aabbDims [((0 : ℝ), (0 : ℝ)), (0, h), (w, h), (0, w), (0, 0)] = (w, max w h) := by
  simp only [aabbDims, List.map_cons, List.map_nil, List.foldl_cons, List.foldl_nil]
  have hmaxx : max (max (max (max (0 : ℝ) 0) w) 0) 0 = w := by
    apply le_antisymm
    · exact max_le (max_le (max_le (max_le hw hw) le_rfl) hw) hw
    · exact le_max_of_le_left (le_max_of_le_left (le_max_right _ _))
  have hminx : min (min (min (min (0 : ℝ) 0) w) 0) 0 = 0 := by
    apply le_antisymm
    · exact min_le_of_left_le (min_le_of_left_le (min_le_of_left_le (min_le_left _ _)))
    · exact le_min (le_min (le_min (le_min le_rfl le_rfl) hw) le_rfl) le_rfl
  have hmaxy : max (max (max (max (0 : ℝ) h) h) w) 0 = max w h := by
    apply le_antisymm
    · refine max_le (max_le (max_le (max_le ?_ (le_max_right _ _)) (le_max_right _ _))
        (le_max_left _ _)) ?_
      · exact le_trans hh (le_max_right _ _)
      · exact le_trans hh (le_max_right _ _)
    · refine max_le ?_ ?_
      · exact le_max_of_le_left (le_max_right _ _)
      · exact le_max_of_le_left (le_max_of_le_left (le_max_of_le_left (le_max_right _ _)))
  have hminy : min (min (min (min (0 : ℝ) h) h) w) 0 = 0 := by
    apply le_antisymm
    · exact min_le_right _ _
    · exact le_min (le_min (le_min (le_min le_rfl hh) hh) hw) le_rfl
  rw [hmaxx, hminx, hmaxy, hminy, Prod.ext_iff]
  constructor
  · show w - 0 = w
    ring
  · show max w h - 0 = max w h
    ring

lemma dist_EF_eval (w h S C : ℝ) (hw : 0 ≤ w) (hh : 0 ≤ h)
    (hS0 : 0 ≤ S) (hC0 : 0 ≤ C) (hsc : S ^ 2 + C ^ 2 = 1) :
    euclidDist (w * S * S, -(w * S * C)) (-(h * C * S), h * C * C) = h * C + w * S := by
  unfold euclidDist
  have hsq : ((w * S * S : ℝ) - -(h * C * S)) ^ 2 + (-(w * S * C) - h * C * C) ^ 2 =
      (h * C + w * S) ^ 2 := by
    linear_combination (w * S + h * C) ^ 2 * hsc
  rw [show ((w * S * S, -(w * S * C)) : Vec2).1 - ((-(h * C * S), h * C * C) : Vec2).1 =
      (w * S * S : ℝ) - -(h * C * S) from rfl]
  rw [show ((w * S * S, -(w * S * C)) : Vec2).2 - ((-(h * C * S), h * C * C) : Vec2).2 =
      (-(w * S * C) : ℝ) - h * C * C from rfl]
  rw [hsq]
  exact Real.sqrt_sq (add_nonneg (mul_nonneg hh hC0) (mul_nonneg hw hS0))

lemma dist_FG_eval (w h S C : ℝ) (hw : 0 ≤ w) (hh : 0 ≤ h)
    (hS0 : 0 ≤ S) (hC0 : 0 ≤ C) (hsc : S ^ 2 + C ^ 2 = 1) :
    euclidDist (-(h * C * S), h * C * C) (w - w * S * S, h + w * S * C) =
      w * C + h * S := by
  unfold euclidDist
  have hsq : ((-(h * C * S) : ℝ) - (w - w * S * S)) ^ 2 +
      (h * C * C - (h + w * S * C)) ^ 2 = (w * C + h * S) ^ 2 := by
    linear_combination ((w * C + h * S) ^ 2 - 2 * w * (w * C * C + h * C * S) -
      2 * h * (h * S * S + w * S * C) + (S ^ 2 + C ^ 2 - 1) * (w ^ 2 + h ^ 2)) * hsc
  rw [show ((-(h * C * S), h * C * C) : Vec2).1 - ((w - w * S * S, h + w * S * C) : Vec2).1 =
      (-(h * C * S) : ℝ) - (w - w * S * S) from rfl]
  rw [show ((-(h * C * S), h * C * C) : Vec2).2 - ((w - w * S * S, h + w * S * C) : Vec2).2 =
      (h * C * C : ℝ) - (h + w * S * C) from rfl]
  rw [hsq]
  exact Real.sqrt_sq (add_nonneg (mul_nonneg hw hC0) (mul_nonneg hh hS0))

/-- C1 (amended): for every Viewport with nonnegative dimensions `[w, h]`: when
`r ≠ 0`, `visiblePolygon()` is the closed rotated rectangle `[E, F, G, H, E]`
whose side lengths are `h·cosr + w·sinr` and `w·cosr + h·sinr` (where
`sinr = |sin r|`, `cosr = |cos r|`), so `visibleDimensions()` equals the
ceiling of exactly those side lengths — but the polygon's *axis-aligned*
bounding box is `[w + 2·h·cosr·sinr, h + 2·w·sinr·cosr]`, which is what the
claim's equality would have to compare against and differs in general. When
`r = 0`, `visibleDimensions()` does reduce to `[w, h]`, but the polygon's
bounding box is `[w, max w h]` (its fourth vertex is `[0, w]`, not `[w, 0]`). -/
theorem c1_amended (s : ViewportState) (hw : 0 ≤ s.dimensions.1) (hh : 0 ≤ s.dimensions.2) :
    (s.transform.r ≠ 0 →
      Viewport.visiblePolygon s =
        [(s.dimensions.1 * |Real.sin s.transform.r| * |Real.sin s.transform.r|,
          -(s.dimensions.1 * |Real.sin s.transform.r| * |Real.cos s.transform.r|)),
         (-(s.dimensions.2 * |Real.cos s.transform.r| * |Real.sin s.transform.r|),
          s.dimensions.2 * |Real.cos s.transform.r| * |Real.cos s.transform.r|),
         (s.dimensions.1 - s.dimensions.1 * |Real.sin s.transform.r| * |Real.sin s.transform.r|,
          s.dimensions.2 + s.dimensions.1 * |Real.sin s.transform.r| * |Real.cos s.transform.r|),
         (s.dimensions.1 + s.dimensions.2 * |Real.cos s.transform.r| * |Real.sin s.transform.r|,
          s.dimensions.2 - s.dimensions.2 * |Real.cos s.transform.r| * |Real.cos s.transform.r|),
         (s.dimensions.1 * |Real.sin s.transform.r| * |Real.sin s.transform.r|,
          -(s.dimensions.1 * |Real.sin s.transform.r| * |Real.cos s.transform.r|))] ∧
      aabbDims (Viewport.visiblePolygon s) =
        (s.dimensions.1 +
          2 * (s.dimensions.2 * |Real.cos s.transform.r| * |Real.sin s.transform.r|),
         s.dimensions.2 +
          2 * (s.dimensions.1 * |Real.sin s.transform.r| * |Real.cos s.transform.r|)) ∧
      euclidDist
          (s.dimensions.1 * |Real.sin s.transform.r| * |Real.sin s.transform.r|,
           -(s.dimensions.1 * |Real.sin s.transform.r| * |Real.cos s.transform.r|))
          (-(s.dimensions.2 * |Real.cos s.transform.r| * |Real.sin s.transform.r|),
           s.dimensions.2 * |Real.cos s.transform.r| * |Real.cos s.transform.r|) =
        s.dimensions.2 * |Real.cos s.transform.r| + s.dimensions.1 * |Real.sin s.transform.r| ∧
      euclidDist
          (-(s.dimensions.2 * |Real.cos s.transform.r| * |Real.sin s.transform.r|),
           s.dimensions.2 * |Real.cos s.transform.r| * |Real.cos s.transform.r|)
          (s.dimensions.1 - s.dimensions.1 * |Real.sin s.transform.r| * |Real.sin s.transform.r|,
           s.dimensions.2 + s.dimensions.1 * |Real.sin s.transform.r| * |Real.cos s.transform.r|) =
        s.dimensions.1 * |Real.cos s.transform.r| + s.dimensions.2 * |Real.sin s.transform.r| ∧
      Viewport.visibleDimensions s =
        vecCeil (s.dimensions.1 * |Real.cos s.transform.r| +
            s.dimensions.2 * |Real.sin s.transform.r|,
          s.dimensions.2 * |Real.cos s.transform.r| +
            s.dimensions.1 * |Real.sin s.transform.r|)) ∧
    (s.transform.r = 0 →
      Viewport.visibleDimensions s = (s.dimensions.1, s.dimensions.2) ∧
      aabbDims (Viewport.visiblePolygon s) =
        (s.dimensions.1, max s.dimensions.1 s.dimensions.2)) := by
  have hsc : |Real.sin s.transform.r| ^ 2 + |Real.cos s.transform.r| ^ 2 = 1 := by
    rw [sq_abs, sq_abs]
    exact Real.sin_sq_add_cos_sq _
  constructor
  · intro hr
    refine ⟨visiblePolygon_rot s hr, ?_, ?_, ?_, visibleDimensions_rot s hr⟩
    · rw [visiblePolygon_rot s hr]
      exact aabb_rot_eval _ _ _ _ hw hh (abs_nonneg _) (Real.abs_sin_le_one _)
        (abs_nonneg _) (Real.abs_cos_le_one _)
    · exact dist_EF_eval _ _ _ _ hw hh (abs_nonneg _) (abs_nonneg _) hsc
    · exact dist_FG_eval _ _ _ _ hw hh (abs_nonneg _) (abs_nonneg _) hsc
  · intro hr0
    refine ⟨visibleDimensions_zero s hr0, ?_⟩
    rw [visiblePolygon_zero s hr0]
    exact aabb_zero_eval _ _ hw hh

/-- C1 witness: the amended theorem's `r = 0` clause at the Viewport with
dimensions `[800, 600]` and no rotation. -/
theorem c1_witness :
    Viewport.visibleDimensions (mkViewport none none none none (some (800, 600))) =
      ((mkViewport none none none none (some (800, 600))).dimensions.1,
       (mkViewport none none none none (some (800, 600))).dimensions.2) ∧
    aabbDims (Viewport.visiblePolygon (mkViewport none none none none (some (800, 600)))) =
      ((mkViewport none none none none (some (800, 600))).dimensions.1,
       max (mkViewport none none none none (some (800, 600))).dimensions.1
         (mkViewport none none none none (some (800, 600))).dimensions.2) :=
  (c1_amended (mkViewport none none none none (some (800, 600)))
      (show (0 : ℝ) ≤ 800 by norm_num) (show (0 : ℝ) ≤ 600 by norm_num)).2
    (show numWrap (jsOr none 0) 0 TAU = 0 by
      show numWrap 0 0 TAU = 0
      unfold numWrap
      rw [show ((0 : ℝ) - 0) / (TAU - 0) = 0 by simp, Int.fract_zero]
      ring)

/-! ### Claim C2 -/

/-- Test fixture: the Viewport of the C2 scenario — dimensions `[800, 600]`,
default scale `256/π`, translation `(0, 0)`, rotation `0`. -/
def vp800 : ViewportState := mkViewport none none none none (some (800, 600))

lemma vp800_r : vp800.transform.r = 0 := by
  show numWrap (jsOr none 0) 0 TAU = 0
  show numWrap 0 0 TAU = 0
  unfold numWrap
  rw [show ((0 : ℝ) - 0) / (TAU - 0) = 0 by simp, Int.fract_zero]
  ring

lemma vp800_k : vp800.transform.k = 256 / Real.pi := by
  show numClamp (256 / Real.pi) MIN_K MAX_K = 256 / Real.pi
  exact numClamp_eq_self k_default_mem.1 k_default_mem.2

lemma vp800_x : vp800.transform.x = 0 := rfl

lemma vp800_y : vp800.transform.y = 0 := rfl

lemma vp800_d1 : vp800.dimensions.1 = 800 := rfl

lemma vp800_d2 : vp800.dimensions.2 = 600 := rfl

lemma unproject_zero_rot (s : ViewportState) (hr : s.transform.r = 0) (p : Vec2) (incl : Bool) :
    Viewport.unproject s p incl =
      ((p.1 - s.transform.x) / s.transform.k * RAD2DEG,
       (2 * Real.arctan (Real.exp (numClamp ((s.transform.y - p.2) / s.transform.k)
         (-Real.pi) Real.pi)) - HALF_PI) * RAD2DEG) := by
  simp only [Viewport.unproject]
  rw [if_neg (fun hcon => hcon.2 hr)]

lemma clamp_zero_pi : numClamp ((0 : ℝ)) (-Real.pi) Real.pi = 0 :=
  numClamp_eq_self (by linarith [Real.pi_pos]) (by linarith [Real.pi_pos])

lemma vp800_u0 : Viewport.unproject vp800 (0, 0) true = (0, 0) := by
  rw [unproject_zero_rot vp800 vp800_r]
  rw [Prod.ext_iff]
  constructor
  · show ((0 : ℝ) - vp800.transform.x) / vp800.transform.k * RAD2DEG = 0
    rw [vp800_x, vp800_k]
    norm_num
  · show (2 * Real.arctan (Real.exp (numClamp ((vp800.transform.y - 0) / vp800.transform.k)
      (-Real.pi) Real.pi)) - HALF_PI) * RAD2DEG = 0
    rw [vp800_y, vp800_k]
    rw [show ((0 : ℝ) - 0) / (256 / Real.pi) = 0 by norm_num, clamp_zero_pi,
      Real.exp_zero, Real.arctan_one]
    unfold HALF_PI
    ring

lemma clamp_600 : numClamp (((0 : ℝ) - 600) / (256 / Real.pi)) (-Real.pi) Real.pi = -Real.pi := by
  have hv : ((0 : ℝ) - 600) / (256 / Real.pi) = -(75 / 32) * Real.pi := by
    field_simp
    ring
  rw [hv]
  exact numClamp_eq_left (by nlinarith [Real.pi_pos]) (by linarith [Real.pi_pos])

lemma clamp_800 : numClamp (((0 : ℝ) - 800) / (256 / Real.pi)) (-Real.pi) Real.pi = -Real.pi := by
  have hv : ((0 : ℝ) - 800) / (256 / Real.pi) = -(25 / 8) * Real.pi := by
    field_simp
    ring
  rw [hv]
  exact numClamp_eq_left (by nlinarith [Real.pi_pos]) (by linarith [Real.pi_pos])

lemma vp800_u1 : Viewport.unproject vp800 (0, 600) true = (0, MIN_PHI * RAD2DEG) := by
  rw [unproject_zero_rot vp800 vp800_r]
  rw [Prod.ext_iff]
  constructor
  · show ((0 : ℝ) - vp800.transform.x) / vp800.transform.k * RAD2DEG = 0
    rw [vp800_x, vp800_k]
    norm_num
  · show (2 * Real.arctan (Real.exp (numClamp ((vp800.transform.y - 600) / vp800.transform.k)
      (-Real.pi) Real.pi)) - HALF_PI) * RAD2DEG = MIN_PHI * RAD2DEG
    rw [vp800_y, vp800_k, clamp_600]
    rfl

lemma vp800_u2 : Viewport.unproject vp800 (800, 600) true = (562.5, MIN_PHI * RAD2DEG) := by
  rw [unproject_zero_rot vp800 vp800_r]
  rw [Prod.ext_iff]
  constructor
  · show ((800 : ℝ) - vp800.transform.x) / vp800.transform.k * RAD2DEG = 562.5
    rw [vp800_x, vp800_k]
    unfold RAD2DEG
    have h := Real.pi_ne_zero
    field_simp
    ring
  · show (2 * Real.arctan (Real.exp (numClamp ((vp800.transform.y - 600) / vp800.transform.k)
      (-Real.pi) Real.pi)) - HALF_PI) * RAD2DEG = MIN_PHI * RAD2DEG
    rw [vp800_y, vp800_k, clamp_600]
    rfl

lemma vp800_u3 : Viewport.unproject vp800 (0, 800) true = (0, MIN_PHI * RAD2DEG) := by
  rw [unproject_zero_rot vp800 vp800_r]
  rw [Prod.ext_iff]
  constructor
  · show ((0 : ℝ) - vp800.transform.x) / vp800.transform.k * RAD2DEG = 0
    rw [vp800_x, vp800_k]
    norm_num
  · show (2 * Real.arctan (Real.exp (numClamp ((vp800.transform.y - 800) / vp800.transform.k)
      (-Real.pi) Real.pi)) - HALF_PI) * RAD2DEG = MIN_PHI * RAD2DEG
    rw [vp800_y, vp800_k, clamp_800]
    rfl

lemma vp800_lat_neg : MIN_PHI * RAD2DEG < 0 :=
  mul_neg_of_neg_of_pos MIN_PHI_neg RAD2DEG_pos

lemma vp800_extent :
    Viewport.extent vp800 = some ((0, MIN_PHI * RAD2DEG), (562.5, 0)) := by
  have hpoly : Viewport.visiblePolygon vp800 =
      [(0, 0), (0, 600), (800, 600), (0, 800), (0, 0)] := by
    rw [visiblePolygon_zero vp800 vp800_r, vp800_d1, vp800_d2]
  show (Viewport.visiblePolygon vp800).dropLast.foldl
    (fun e p => Extent.extendSelf e (Viewport.unproject vp800 p true)) none = _
  rw [hpoly]
  show Extent.extendSelf (Extent.extendSelf (Extent.extendSelf (Extent.extendSelf none
      (Viewport.unproject vp800 (0, 0) true)) (Viewport.unproject vp800 (0, 600) true))
      (Viewport.unproject vp800 (800, 600) true)) (Viewport.unproject vp800 (0, 800) true) = _
  rw [vp800_u0, vp800_u1, vp800_u2, vp800_u3]
  simp only [Extent.extendSelf]
  have hm := le_of_lt vp800_lat_neg
  simp only [min_self, max_self, min_eq_right hm, max_eq_left hm,
    min_eq_left (show (0 : ℝ) ≤ 562.5 by norm_num),
    max_eq_right (show (0 : ℝ) ≤ 562.5 by norm_num),
    max_eq_left (show (0 : ℝ) ≤ 562.5 by norm_num),
    min_eq_right (show (0 : ℝ) ≤ 562.5 by norm_num)]

/-- C2 counterexample: for the Viewport with dimensions `[800, 600]`, scale
`256/π`, translation `(0, 0)` and rotation `0`, `extent()` is *not* the pair
with min corner `unproject([0,0])` and max corner `unproject([800,600])`: the
computed extent is `((0, −85.051…), (562.5, 0))`, whereas `unproject([0,0])` is
`(0, 0)` (its latitude 0 is the extent's *max* latitude, not its min). -/
theorem c2_counterexample :
    Viewport.extent vp800 ≠
      some (Viewport.unproject vp800 (0, 0) true,
            Viewport.unproject vp800 (800, 600) true) := by
  rw [vp800_extent, vp800_u0, vp800_u2]
  intro heq
  have h2 := congrArg (fun e : Extent => (e.getD ((0, 0), (0, 0))).1.2) heq
  simp only [Option.getD_some] at h2
  have h3 : MIN_PHI * RAD2DEG = 0 := h2
  linarith [vp800_lat_neg]

/-- C2 (amended): for that Viewport, `extent()` equals the bounding box obtained
by extending an empty `Extent` with `unproject([0,0])` and `unproject([800,600])`
— the box *spanned* by the two corner unprojections (its min corner takes its
latitude from `unproject([800,600])` and its longitude from `unproject([0,0])`,
the max corner conversely), rather than having those two points as its min and
max corners respectively. -/
theorem c2_extent_spanned :
    Viewport.extent vp800 =
      Extent.extendSelf (Extent.extendSelf none (Viewport.unproject vp800 (0, 0) true))
        (Viewport.unproject vp800 (800, 600) true) := by
  rw [vp800_extent, vp800_u0, vp800_u2]
  simp only [Extent.extendSelf]
  have hm := le_of_lt vp800_lat_neg
  simp only [min_self, max_self, min_eq_right hm, max_eq_left hm,
    min_eq_left (show (0 : ℝ) ≤ 562.5 by norm_num),
    max_eq_right (show (0 : ℝ) ≤ 562.5 by norm_num),
    max_eq_left (show (0 : ℝ) ≤ 562.5 by norm_num),
    min_eq_right (show (0 : ℝ) ≤ 562.5 by norm_num)]

/-! ### Claim C8 — certified numeric bounds

The tolerance claims need rational enclosures of `sin`, `cos`, `exp` and
`arctan` at specific points. Sines are evaluated by Taylor bounds at a tiny
angle (`Real.sin_bound`) lifted through the exact triple-angle identity;
cosines via `cos 2y = 1 − 2 sin² y`; `exp` through `Real.exp_bound` at a
quarter argument raised to the fourth power; `arctan` through comparison with
`tan` at rational multiples of `π` bracketed by `Real.pi_gt_d20`/`pi_lt_d20`. -/

lemma sin_base (x lo hi : ℝ) (hx0 : 0 ≤ x) (hx1 : x ≤ 1)
    (hlo : lo ≤ x - x ^ 3 / 6 - x ^ 4 * (5 / 96)) (hhi : x - x ^ 3 / 6 + x ^ 4 * (5 / 96) ≤ hi) :
    lo ≤ Real.sin x ∧ Real.sin x ≤ hi := by
  have hb := Real.sin_bound (show |x| ≤ 1 by rwa [abs_of_nonneg hx0])
  rw [abs_of_nonneg hx0] at hb
  have h2 := abs_le.mp hb
  constructor
  · linarith [h2.1]
  · linarith [h2.2]

lemma sin_step (a lo hi lo2 hi2 : ℝ) (h : lo ≤ Real.sin a ∧ Real.sin a ≤ hi)
    (hlo : -(1 / 2) ≤ lo) (hhi : hi ≤ 1 / 2)
    (hlo2 : lo2 ≤ 3 * lo - 4 * lo ^ 3) (hhi2 : 3 * hi - 4 * hi ^ 3 ≤ hi2) :
    lo2 ≤ Real.sin (3 * a) ∧ Real.sin (3 * a) ≤ hi2 := by
  obtain ⟨h1, h2⟩ := h
  rw [Real.sin_three_mul]
  have hs1 : -(1 / 2 : ℝ) ≤ Real.sin a := le_trans hlo h1
  have hs2 : Real.sin a ≤ 1 / 2 := le_trans h2 hhi
  have hlo1 : lo ≤ 1 / 2 := le_trans h1 hs2
  have hhi1 : -(1 / 2 : ℝ) ≤ hi := le_trans hs1 h2
  constructor
  · have hq : 0 ≤ 3 - 4 * (Real.sin a ^ 2 + Real.sin a * lo + lo ^ 2) := by
      nlinarith [mul_nonneg (show (0:ℝ) ≤ 1 / 2 - Real.sin a by linarith)
          (show (0:ℝ) ≤ Real.sin a + 1 / 2 by linarith),
        mul_nonneg (show (0:ℝ) ≤ 1 / 2 - lo by linarith)
          (show (0:ℝ) ≤ lo + 1 / 2 by linarith),
        mul_nonneg (show (0:ℝ) ≤ 1 / 2 - Real.sin a by linarith)
          (show (0:ℝ) ≤ 1 / 2 - lo by linarith),
        mul_nonneg (show (0:ℝ) ≤ Real.sin a + 1 / 2 by linarith)
          (show (0:ℝ) ≤ lo + 1 / 2 by linarith)]
    nlinarith [mul_nonneg (sub_nonneg.mpr h1) hq]
  · have hq : 0 ≤ 3 - 4 * (hi ^ 2 + hi * Real.sin a + Real.sin a ^ 2) := by
      nlinarith [mul_nonneg (show (0:ℝ) ≤ 1 / 2 - Real.sin a by linarith)
          (show (0:ℝ) ≤ Real.sin a + 1 / 2 by linarith),
        mul_nonneg (show (0:ℝ) ≤ 1 / 2 - hi by linarith)
          (show (0:ℝ) ≤ hi + 1 / 2 by linarith),
        mul_nonneg (show (0:ℝ) ≤ 1 / 2 - Real.sin a by linarith)
          (show (0:ℝ) ≤ 1 / 2 - hi by linarith),
        mul_nonneg (show (0:ℝ) ≤ Real.sin a + 1 / 2 by linarith)
          (show (0:ℝ) ≤ hi + 1 / 2 by linarith)]
    nlinarith [mul_nonneg (sub_nonneg.mpr h2) hq]

lemma cos_double_bounds (y lo hi cl cu : ℝ) (h : lo ≤ Real.sin y ∧ Real.sin y ≤ hi)
    (h0 : 0 ≤ lo) (hcl : cl ≤ 1 - 2 * hi ^ 2) (hcu : 1 - 2 * lo ^ 2 ≤ cu) :
    cl ≤ Real.cos (2 * y) ∧ Real.cos (2 * y) ≤ cu := by
  obtain ⟨h1, h2⟩ := h
  have hc : Real.cos (2 * y) = 1 - 2 * Real.sin y ^ 2 := by
    rw [Real.cos_two_mul]
    linear_combination 2 * Real.sin_sq_add_cos_sq y
  rw [hc]
  constructor
  · nlinarith [mul_nonneg (sub_nonneg.mpr h2) (show 0 ≤ Real.sin y + hi by linarith)]
  · nlinarith [mul_nonneg (sub_nonneg.mpr h1) (show 0 ≤ Real.sin y + lo by linarith)]

lemma sinA_bounds :
    (21586812460595619519 / 500000000000000000000 : ℝ) ≤
      Real.sin (7773668734471137987166369240547 / 180000000000000000000000000000000) ∧
    Real.sin (7773668734471137987166369240547 / 180000000000000000000000000000000 : ℝ) ≤
      43173624939584002977 / 1000000000000000000000 := by
  have s0 := sin_base
    (7773668734471137987166369240547 / 180000000000000000000000000000000 / 27)
    (15995196333410230017 / 10000000000000000000000)
    (7997598170114356877 / 5000000000000000000000)
    (by norm_num) (by norm_num) (by norm_num) (by norm_num)
  have s1 := sin_step _ _ _
    (23992712653877513857 / 5000000000000000000000)
    (11996356332052567397 / 2500000000000000000000)
    s0 (by norm_num) (by norm_num) (by norm_num) (by norm_num)
  have s2 := sin_step _ _ _
    (7197592813582628507 / 500000000000000000000)
    (7197592816650632187 / 500000000000000000000)
    s1 (by norm_num) (by norm_num) (by norm_num) (by norm_num)
  have s3 := sin_step _ _ _
    (21586812460595619519 / 500000000000000000000)
    (43173624939584002977 / 1000000000000000000000)
    s2 (by norm_num) (by norm_num) (by norm_num) (by norm_num)
  rwa [show (3 : ℝ) * (3 * (3 *
      (7773668734471137987166369240547 / 180000000000000000000000000000000 / 27))) =
      7773668734471137987166369240547 / 180000000000000000000000000000000 by ring] at s3

lemma sinAhalf_bounds :
    (21591846180214240941 / 1000000000000000000000 : ℝ) ≤
      Real.sin (7773668734471137987166369240547 / 360000000000000000000000000000000) ∧
    Real.sin (7773668734471137987166369240547 / 360000000000000000000000000000000 : ℝ) ≤
      10795923105636902123 / 500000000000000000000 := by
  have s0 := sin_base
    (7773668734471137987166369240547 / 360000000000000000000000000000000 / 9)
    (11996390849739446063 / 5000000000000000000000)
    (599819543349936651 / 250000000000000000000)
    (by norm_num) (by norm_num) (by norm_num) (by norm_num)
  have s1 := sin_step _ _ _
    (71977792637215564317 / 10000000000000000000000)
    (71977792740768901571 / 10000000000000000000000)
    s0 (by norm_num) (by norm_num) (by norm_num) (by norm_num)
  have s2 := sin_step _ _ _
    (21591846180214240941 / 1000000000000000000000)
    (10795923105636902123 / 500000000000000000000)
    s1 (by norm_num) (by norm_num) (by norm_num) (by norm_num)
  rwa [show (3 : ℝ) * (3 *
      (7773668734471137987166369240547 / 360000000000000000000000000000000 / 9)) =
      7773668734471137987166369240547 / 360000000000000000000000000000000 by ring] at s2

lemma cosA_lower :
    (99906758435437740213 / 100000000000000000000 : ℝ) ≤
      Real.cos (7773668734471137987166369240547 / 180000000000000000000000000000000) := by
  have hc := cos_double_bounds
    (7773668734471137987166369240547 / 360000000000000000000000000000000)
    _ _ (99906758435437740213 / 100000000000000000000) 1
    sinAhalf_bounds (by norm_num) (by norm_num) (by norm_num)
  rw [show (2 : ℝ) * (7773668734471137987166369240547 / 360000000000000000000000000000000) =
      7773668734471137987166369240547 / 180000000000000000000000000000000 by ring] at hc
  exact hc.1

lemma sin2_bounds :
    (43173616202681846349 / 1000000000000000000000 : ℝ) ≤
      Real.sin (7773667163674811192269750005547 / 180000000000000000000000000000000) ∧
    Real.sin (7773667163674811192269750005547 / 180000000000000000000000000000000 : ℝ) ≤
      43173616221074595429 / 1000000000000000000000 := by
  have s0 := sin_base
    (7773667163674811192269750005547 / 180000000000000000000000000000000 / 27)
    (15995193101323159971 / 10000000000000000000000)
    (15995193108141638197 / 10000000000000000000000)
    (by norm_num) (by norm_num) (by norm_num) (by norm_num)
  have s1 := sin_step _ _ _
    (2399270780579652383 / 500000000000000000000)
    (47985415632048273001 / 10000000000000000000000)
    s0 (by norm_num) (by norm_num) (by norm_num) (by norm_num)
  have s2 := sin_step _ _ _
    (1799397839823072457 / 125000000000000000000)
    (14395182724720582057 / 1000000000000000000000)
    s1 (by norm_num) (by norm_num) (by norm_num) (by norm_num)
  have s3 := sin_step _ _ _
    (43173616202681846349 / 1000000000000000000000)
    (43173616221074595429 / 1000000000000000000000)
    s2 (by norm_num) (by norm_num) (by norm_num) (by norm_num)
  rwa [show (3 : ℝ) * (3 * (3 *
      (7773667163674811192269750005547 / 180000000000000000000000000000000 / 27))) =
      7773667163674811192269750005547 / 180000000000000000000000000000000 by ring] at s3

lemma sin2half_bounds :
    (21591841817908349567 / 1000000000000000000000 : ℝ) ≤
      Real.sin (7773667163674811192269750005547 / 360000000000000000000000000000000) ∧
    Real.sin (7773667163674811192269750005547 / 360000000000000000000000000000000 : ℝ) ≤
      2159184184896788777 / 100000000000000000000 := by
  have s0 := sin_base
    (7773667163674811192269750005547 / 360000000000000000000000000000000 / 9)
    (23992776851356049241 / 10000000000000000000000)
    (4798555377174919051 / 2000000000000000000000)
    (by norm_num) (by norm_num) (by norm_num) (by norm_num)
  have s1 := sin_step _ _ _
    (71977778093181936303 / 10000000000000000000000)
    (3598888909836759493 / 500000000000000000000)
    s0 (by norm_num) (by norm_num) (by norm_num) (by norm_num)
  have s2 := sin_step _ _ _
    (21591841817908349567 / 1000000000000000000000)
    (2159184184896788777 / 100000000000000000000)
    s1 (by norm_num) (by norm_num) (by norm_num) (by norm_num)
  rwa [show (3 : ℝ) * (3 *
      (7773667163674811192269750005547 / 360000000000000000000000000000000 / 9)) =
      7773667163674811192269750005547 / 360000000000000000000000000000000 by ring] at s2

lemma cos2_lower :
    (99906758473113831797 / 100000000000000000000 : ℝ) ≤
      Real.cos (7773667163674811192269750005547 / 180000000000000000000000000000000) := by
  have hc := cos_double_bounds
    (7773667163674811192269750005547 / 360000000000000000000000000000000)
    _ _ (99906758473113831797 / 100000000000000000000) 1
    sin2half_bounds (by norm_num) (by norm_num) (by norm_num)
  rw [show (2 : ℝ) * (7773667163674811192269750005547 / 360000000000000000000000000000000) =
      7773667163674811192269750005547 / 180000000000000000000000000000000 by ring] at hc
  exact hc.1

lemma sin3_bounds :
    (43173633639700628439 / 1000000000000000000000 : ℝ) ≤
      Real.sin (1295611717544577463673040685741 / 30000000000000000000000000000000) ∧
    Real.sin (1295611717544577463673040685741 / 30000000000000000000000000000000 : ℝ) ≤
      10793408414523351809 / 250000000000000000000 := by
  have s0 := sin_base
    (1295611717544577463673040685741 / 30000000000000000000000000000000 / 27)
    (15995199565497300061 / 10000000000000000000000)
    (15995199572315789309 / 10000000000000000000000)
    (by norm_num) (by norm_num) (by norm_num) (by norm_num)
  have s1 := sin_step _ _ _
    (47985435003917007721 / 10000000000000000000000)
    (2999089689023266633 / 625000000000000000000)
    s0 (by norm_num) (by norm_num) (by norm_num) (by norm_num)
  have s2 := sin_step _ _ _
    (57580754142983737 / 4000000000000000000)
    (14395188541881946569 / 1000000000000000000000)
    s1 (by norm_num) (by norm_num) (by norm_num) (by norm_num)
  have s3 := sin_step _ _ _
    (43173633639700628439 / 1000000000000000000000)
    (10793408414523351809 / 250000000000000000000)
    s2 (by norm_num) (by norm_num) (by norm_num) (by norm_num)
  rwa [show (3 : ℝ) * (3 * (3 *
      (1295611717544577463673040685741 / 30000000000000000000000000000000 / 27))) =
      1295611717544577463673040685741 / 30000000000000000000000000000000 by ring] at s3

lemma sin3half_bounds :
    (337372664726877061 / 15625000000000000000 : ℝ) ≤
      Real.sin (1295611717544577463673040685741 / 60000000000000000000000000000000) ∧
    Real.sin (1295611717544577463673040685741 / 60000000000000000000000000000000 : ℝ) ≤
      21591850573579720311 / 1000000000000000000000 := by
  have s0 := sin_base
    (1295611717544577463673040685741 / 60000000000000000000000000000000 / 9)
    (4798557309520347001 / 2000000000000000000000)
    (1199639329106016841 / 500000000000000000000)
    (by norm_num) (by norm_num) (by norm_num) (by norm_num)
  have s1 := sin_step _ _ _
    (71977807181249192177 / 10000000000000000000000)
    (17994451821200653283 / 2500000000000000000000)
    s0 (by norm_num) (by norm_num) (by norm_num) (by norm_num)
  have s2 := sin_step _ _ _
    (337372664726877061 / 15625000000000000000)
    (21591850573579720311 / 1000000000000000000000)
    s1 (by norm_num) (by norm_num) (by norm_num) (by norm_num)
  rwa [show (3 : ℝ) * (3 *
      (1295611717544577463673040685741 / 60000000000000000000000000000000 / 9)) =
      1295611717544577463673040685741 / 60000000000000000000000000000000 by ring] at s2

lemma cos3_upper :
    Real.cos (1295611717544577463673040685741 / 30000000000000000000000000000000 : ℝ) ≤
      49953379199014947309 / 50000000000000000000 := by
  have hc := cos_double_bounds
    (1295611717544577463673040685741 / 60000000000000000000000000000000)
    _ _ 0 (49953379199014947309 / 50000000000000000000)
    sin3half_bounds (by norm_num) (by norm_num) (by norm_num)
  rw [show (2 : ℝ) * (1295611717544577463673040685741 / 60000000000000000000000000000000) =
      1295611717544577463673040685741 / 30000000000000000000000000000000 by ring] at hc
  exact hc.2

lemma exp_neg_pi_lower :
    (43213918263473500497 / 1000000000000000000000 : ℝ) ≤ Real.exp (-Real.pi) := by
  have hx : |(-(314159265358979323847 / 100000000000000000000) / 4 : ℝ)| ≤ 1 := by
    rw [abs_of_nonpos (by norm_num)]
    norm_num
  have hb := @Real.exp_bound (-(314159265358979323847 / 100000000000000000000) / 4) hx 14
    (by norm_num)
  rw [show |(-(314159265358979323847 / 100000000000000000000) / 4 : ℝ)| =
      314159265358979323847 / 400000000000000000000 by
    rw [abs_of_nonpos (by norm_num)]; norm_num] at hb
  have h2 := (abs_le.mp hb).1
  norm_num [Finset.sum_range_succ, Nat.factorial] at h2
  have hd1 : (45593812776520823147 / 100000000000000000000 : ℝ) ≤
      Real.exp (-(314159265358979323847 / 100000000000000000000) / 4) := by linarith
  have h4 : Real.exp (-(314159265358979323847 / 100000000000000000000) : ℝ) =
      Real.exp (-(314159265358979323847 / 100000000000000000000) / 4) ^ 4 := by
    rw [← Real.exp_nat_mul]
    norm_num
  have h5 : ((45593812776520823147 / 100000000000000000000 : ℝ)) ^ 4 ≤
      Real.exp (-(314159265358979323847 / 100000000000000000000) / 4) ^ 4 :=
    pow_le_pow_left (by norm_num) hd1 4
  have h6 : Real.exp (-(314159265358979323847 / 100000000000000000000) : ℝ) ≤
      Real.exp (-Real.pi) :=
    Real.exp_le_exp.mpr (by linarith [Real.pi_lt_d20])
  calc (43213918263473500497 / 1000000000000000000000 : ℝ)
      ≤ (45593812776520823147 / 100000000000000000000 : ℝ) ^ 4 := by norm_num
    _ ≤ Real.exp (-(314159265358979323847 / 100000000000000000000) / 4) ^ 4 := h5
    _ = Real.exp (-(314159265358979323847 / 100000000000000000000) : ℝ) := h4.symm
    _ ≤ Real.exp (-Real.pi) := h6

lemma exp_neg_pi_upper :
    Real.exp (-Real.pi) ≤ 540173978297377259 / 12500000000000000000 := by
  have hx : |(-(314159265358979323846 / 100000000000000000000) / 4 : ℝ)| ≤ 1 := by
    rw [abs_of_nonpos (by norm_num)]
    norm_num
  have hb := @Real.exp_bound (-(314159265358979323846 / 100000000000000000000) / 4) hx 14
    (by norm_num)
  rw [show |(-(314159265358979323846 / 100000000000000000000) / 4 : ℝ)| =
      314159265358979323846 / 400000000000000000000 by
    rw [abs_of_nonpos (by norm_num)]; norm_num] at hb
  have h2 := (abs_le.mp hb).2
  norm_num [Finset.sum_range_succ, Nat.factorial] at h2
  have hd2 : Real.exp (-(314159265358979323846 / 100000000000000000000) / 4) ≤
      (5699226597075544161 / 12500000000000000000 : ℝ) := by linarith
  have h4 : Real.exp (-(314159265358979323846 / 100000000000000000000) : ℝ) =
      Real.exp (-(314159265358979323846 / 100000000000000000000) / 4) ^ 4 := by
    rw [← Real.exp_nat_mul]
    norm_num
  have h5 : Real.exp (-(314159265358979323846 / 100000000000000000000) / 4) ^ 4 ≤
      ((5699226597075544161 / 12500000000000000000 : ℝ)) ^ 4 :=
    pow_le_pow_left (le_of_lt (Real.exp_pos _)) hd2 4
  have h6 : Real.exp (-Real.pi) ≤
      Real.exp (-(314159265358979323846 / 100000000000000000000) : ℝ) :=
    Real.exp_le_exp.mpr (by linarith [Real.pi_gt_d20])
  calc Real.exp (-Real.pi)
      ≤ Real.exp (-(314159265358979323846 / 100000000000000000000) : ℝ) := h6
    _ = Real.exp (-(314159265358979323846 / 100000000000000000000) / 4) ^ 4 := h4
    _ ≤ (5699226597075544161 / 12500000000000000000 : ℝ) ^ 4 := h5
    _ ≤ 540173978297377259 / 12500000000000000000 := by norm_num

lemma exp_qd_lower :
    (2160695939689403179 / 50000000000000000000 : ℝ) ≤
      Real.exp (Real.pi * (1 / 256000000) - Real.pi) := by
  have h1 : Real.exp (Real.pi * (1 / 256000000) - Real.pi) =
      Real.exp (Real.pi * (1 / 256000000)) * Real.exp (-Real.pi) := by
    rw [← Real.exp_add]
    ring_nf
  have h2 : (1 : ℝ) + 314159265358979323846 / 100000000000000000000 * (1 / 256000000) ≤
      Real.exp (Real.pi * (1 / 256000000)) := by
    have ha := Real.add_one_le_exp (Real.pi * (1 / 256000000))
    have hp : (314159265358979323846 / 100000000000000000000 : ℝ) * (1 / 256000000) ≤
        Real.pi * (1 / 256000000) :=
      mul_le_mul_of_nonneg_right
        (show (314159265358979323846 / 100000000000000000000 : ℝ) ≤ Real.pi by
          linarith [Real.pi_gt_d20]) (by norm_num)
    linarith
  rw [h1]
  calc (2160695939689403179 / 50000000000000000000 : ℝ)
      ≤ ((1 : ℝ) + 314159265358979323846 / 100000000000000000000 * (1 / 256000000)) *
        (43213918263473500497 / 1000000000000000000000) := by norm_num
    _ ≤ Real.exp (Real.pi * (1 / 256000000)) * Real.exp (-Real.pi) :=
        mul_le_mul h2 exp_neg_pi_lower (by norm_num) (le_of_lt (Real.exp_pos _))

lemma key1 :
    Real.pi * (24744356101 / 1800000000000) ≤
      Real.arctan (Real.exp (Real.pi * (1 / 256000000) - Real.pi)) := by
  have hql : Real.pi * (24744356101 / 1800000000000) ≤
      7773668734471137987166369240547 / 180000000000000000000000000000000 := by
    calc Real.pi * (24744356101 / 1800000000000)
        ≤ (314159265358979323847 / 100000000000000000000) * (24744356101 / 1800000000000) :=
          mul_le_mul_of_nonneg_right (by linarith [Real.pi_lt_d20]) (by norm_num)
      _ = 7773668734471137987166369240547 / 180000000000000000000000000000000 := by norm_num
  have hθhalf : (7773668734471137987166369240547 / 180000000000000000000000000000000 : ℝ) <
      Real.pi / 2 := by linarith [Real.pi_gt_three]
  have hθpi : (7773668734471137987166369240547 / 180000000000000000000000000000000 : ℝ) ≤
      Real.pi := by linarith [Real.pi_gt_three]
  have hq0 : (0 : ℝ) ≤ Real.pi * (24744356101 / 1800000000000) := by positivity
  have hsin : Real.sin (Real.pi * (24744356101 / 1800000000000)) ≤
      43173624939584002977 / 1000000000000000000000 :=
    le_trans (Real.sin_le_sin_of_le_of_le_pi_div_two (by linarith [Real.pi_pos])
      (le_of_lt hθhalf) hql) sinA_bounds.2
  have hcos : (99906758435437740213 / 100000000000000000000 : ℝ) ≤
      Real.cos (Real.pi * (24744356101 / 1800000000000)) :=
    le_trans cosA_lower (Real.cos_le_cos_of_nonneg_of_le_pi hq0 hθpi hql)
  have hcos0 : (0 : ℝ) < Real.cos (Real.pi * (24744356101 / 1800000000000)) := by linarith
  have htan : Real.tan (Real.pi * (24744356101 / 1800000000000)) ≤
      2160695939689403179 / 50000000000000000000 := by
    rw [Real.tan_eq_sin_div_cos, div_le_iff hcos0]
    calc Real.sin (Real.pi * (24744356101 / 1800000000000))
        ≤ 43173624939584002977 / 1000000000000000000000 := hsin
      _ ≤ (2160695939689403179 / 50000000000000000000) *
          (99906758435437740213 / 100000000000000000000) := by norm_num
      _ ≤ (2160695939689403179 / 50000000000000000000) *
          Real.cos (Real.pi * (24744356101 / 1800000000000)) :=
          mul_le_mul_of_nonneg_left hcos (by norm_num)
  have harc : Real.pi * (24744356101 / 1800000000000) ≤
      Real.arctan (2160695939689403179 / 50000000000000000000) :=
    calc Real.pi * (24744356101 / 1800000000000)
        = Real.arctan (Real.tan (Real.pi * (24744356101 / 1800000000000))) :=
          (Real.arctan_tan (by linarith [Real.pi_pos]) (lt_of_le_of_lt hql hθhalf)).symm
      _ ≤ Real.arctan (2160695939689403179 / 50000000000000000000) :=
          Real.arctan_strictMono.monotone htan
  exact le_trans harc (Real.arctan_strictMono.monotone exp_qd_lower)

lemma key2_lower :
    Real.pi * (24744351101 / 1800000000000) ≤ Real.arctan (Real.exp (-Real.pi)) := by
  have hql : Real.pi * (24744351101 / 1800000000000) ≤
      7773667163674811192269750005547 / 180000000000000000000000000000000 := by
    calc Real.pi * (24744351101 / 1800000000000)
        ≤ (314159265358979323847 / 100000000000000000000) * (24744351101 / 1800000000000) :=
          mul_le_mul_of_nonneg_right (by linarith [Real.pi_lt_d20]) (by norm_num)
      _ = 7773667163674811192269750005547 / 180000000000000000000000000000000 := by norm_num
  have hθhalf : (7773667163674811192269750005547 / 180000000000000000000000000000000 : ℝ) <
      Real.pi / 2 := by linarith [Real.pi_gt_three]
  have hθpi : (7773667163674811192269750005547 / 180000000000000000000000000000000 : ℝ) ≤
      Real.pi := by linarith [Real.pi_gt_three]
  have hq0 : (0 : ℝ) ≤ Real.pi * (24744351101 / 1800000000000) := by positivity
  have hsin : Real.sin (Real.pi * (24744351101 / 1800000000000)) ≤
      43173616221074595429 / 1000000000000000000000 :=
    le_trans (Real.sin_le_sin_of_le_of_le_pi_div_two (by linarith [Real.pi_pos])
      (le_of_lt hθhalf) hql) sin2_bounds.2
  have hcos : (99906758473113831797 / 100000000000000000000 : ℝ) ≤
      Real.cos (Real.pi * (24744351101 / 1800000000000)) :=
    le_trans cos2_lower (Real.cos_le_cos_of_nonneg_of_le_pi hq0 hθpi hql)
  have hcos0 : (0 : ℝ) < Real.cos (Real.pi * (24744351101 / 1800000000000)) := by linarith
  have htan : Real.tan (Real.pi * (24744351101 / 1800000000000)) ≤
      43213918263473500497 / 1000000000000000000000 := by
    rw [Real.tan_eq_sin_div_cos, div_le_iff hcos0]
    calc Real.sin (Real.pi * (24744351101 / 1800000000000))
        ≤ 43173616221074595429 / 1000000000000000000000 := hsin
      _ ≤ (43213918263473500497 / 1000000000000000000000) *
          (99906758473113831797 / 100000000000000000000) := by norm_num
      _ ≤ (43213918263473500497 / 1000000000000000000000) *
          Real.cos (Real.pi * (24744351101 / 1800000000000)) :=
          mul_le_mul_of_nonneg_left hcos (by norm_num)
  have harc : Real.pi * (24744351101 / 1800000000000) ≤
      Real.arctan (43213918263473500497 / 1000000000000000000000) :=
    calc Real.pi * (24744351101 / 1800000000000)
        = Real.arctan (Real.tan (Real.pi * (24744351101 / 1800000000000))) :=
          (Real.arctan_tan (by linarith [Real.pi_pos]) (lt_of_le_of_lt hql hθhalf)).symm
      _ ≤ Real.arctan (43213918263473500497 / 1000000000000000000000) :=
          Real.arctan_strictMono.monotone htan
  exact le_trans harc (Real.arctan_strictMono.monotone exp_neg_pi_lower)

lemma key2_upper :
    Real.arctan (Real.exp (-Real.pi)) ≤ Real.pi * (24744361101 / 1800000000000) := by
  have hql : (1295611717544577463673040685741 / 30000000000000000000000000000000 : ℝ) ≤
      Real.pi * (24744361101 / 1800000000000) := by
    calc (1295611717544577463673040685741 / 30000000000000000000000000000000 : ℝ)
        = (314159265358979323846 / 100000000000000000000) * (24744361101 / 1800000000000) := by
          norm_num
      _ ≤ Real.pi * (24744361101 / 1800000000000) :=
          mul_le_mul_of_nonneg_right (by linarith [Real.pi_gt_d20]) (by norm_num)
  have hξhalf : Real.pi * (24744361101 / 1800000000000) < Real.pi / 2 := by
    nlinarith [Real.pi_pos]
  have hξ0 : (0 : ℝ) ≤ (1295611717544577463673040685741 /
      30000000000000000000000000000000 : ℝ) := by norm_num
  have hξpi : Real.pi * (24744361101 / 1800000000000) ≤ Real.pi := by
    nlinarith [Real.pi_pos]
  have hsin : (43173633639700628439 / 1000000000000000000000 : ℝ) ≤
      Real.sin (Real.pi * (24744361101 / 1800000000000)) :=
    le_trans sin3_bounds.1
      (Real.sin_le_sin_of_le_of_le_pi_div_two (by linarith [Real.pi_gt_three])
        (le_of_lt hξhalf) hql)
  have hcos : Real.cos (Real.pi * (24744361101 / 1800000000000)) ≤
      49953379199014947309 / 50000000000000000000 :=
    le_trans (Real.cos_le_cos_of_nonneg_of_le_pi hξ0 hξpi hql) cos3_upper
  have hcos0 : (0 : ℝ) < Real.cos (Real.pi * (24744361101 / 1800000000000)) :=
    Real.cos_pos_of_mem_Ioo ⟨by nlinarith [Real.pi_pos], hξhalf⟩
  have htan : (540173978297377259 / 12500000000000000000 : ℝ) ≤
      Real.tan (Real.pi * (24744361101 / 1800000000000)) := by
    rw [Real.tan_eq_sin_div_cos, le_div_iff hcos0]
    calc (540173978297377259 / 12500000000000000000 : ℝ) *
        Real.cos (Real.pi * (24744361101 / 1800000000000))
        ≤ (540173978297377259 / 12500000000000000000) *
          (49953379199014947309 / 50000000000000000000) :=
          mul_le_mul_of_nonneg_left hcos (by norm_num)
      _ ≤ 43173633639700628439 / 1000000000000000000000 := by norm_num
      _ ≤ Real.sin (Real.pi * (24744361101 / 1800000000000)) := hsin
  calc Real.arctan (Real.exp (-Real.pi))
      ≤ Real.arctan (540173978297377259 / 12500000000000000000) :=
        Real.arctan_strictMono.monotone exp_neg_pi_upper
    _ ≤ Real.arctan (Real.tan (Real.pi * (24744361101 / 1800000000000))) :=
        Real.arctan_strictMono.monotone htan
    _ = Real.pi * (24744361101 / 1800000000000) :=
        Real.arctan_tan (by nlinarith [Real.pi_pos]) hξhalf

lemma mercY_neg_t_le :
    mercatorY (-(Real.pi * (850511287798 / 1800000000000))) ≤
      Real.pi * (1 / 256000000) - Real.pi := by
  have hψval : mercatorY (2 * Real.arctan (Real.exp (Real.pi * (1 / 256000000) - Real.pi)) -
      HALF_PI) = Real.pi * (1 / 256000000) - Real.pi := mercatorY_inv_exp _
  have hle : -(Real.pi * (850511287798 / 1800000000000)) ≤
      2 * Real.arctan (Real.exp (Real.pi * (1 / 256000000) - Real.pi)) - HALF_PI := by
    unfold HALF_PI
    linarith [key1]
  have hd1 : -HALF_PI < -(Real.pi * (850511287798 / 1800000000000)) := by
    unfold HALF_PI
    nlinarith [Real.pi_pos]
  have hd2 : 2 * Real.arctan (Real.exp (Real.pi * (1 / 256000000) - Real.pi)) - HALF_PI <
      HALF_PI := by
    unfold HALF_PI
    linarith [Real.arctan_lt_pi_div_two (Real.exp (Real.pi * (1 / 256000000) - Real.pi))]
  calc mercatorY (-(Real.pi * (850511287798 / 1800000000000)))
      ≤ mercatorY (2 * Real.arctan (Real.exp (Real.pi * (1 / 256000000) - Real.pi)) -
        HALF_PI) := mercatorY_le_mercatorY hd1 hle hd2
    _ = Real.pi * (1 / 256000000) - Real.pi := hψval

lemma mercY_t_ge :
    Real.pi - Real.pi * (1 / 256000000) ≤
      mercatorY (Real.pi * (850511287798 / 1800000000000)) := by
  have h := mercY_neg_t_le
  have hodd := mercatorY_neg_eq (Real.pi * (850511287798 / 1800000000000))
  linarith

lemma min_right_le_numClamp (v lo hi : ℝ) : min v hi ≤ numClamp v lo hi :=
  min_le_min (le_max_left _ _) le_rfl

lemma clamp_neg_t_bounds :
    -Real.pi ≤ mercatorY (numClamp (-(Real.pi * (850511287798 / 1800000000000)))
      MIN_PHI MAX_PHI) ∧
    mercatorY (numClamp (-(Real.pi * (850511287798 / 1800000000000))) MIN_PHI MAX_PHI) ≤
      Real.pi * (1 / 256000000) - Real.pi := by
  refine ⟨(mercatorY_mem_of_clamped _).1, ?_⟩
  have hclample : numClamp (-(Real.pi * (850511287798 / 1800000000000))) MIN_PHI MAX_PHI ≤
      max (-(Real.pi * (850511287798 / 1800000000000))) MIN_PHI := numClamp_le_max_left _ _ _
  have hcl_lo : MIN_PHI ≤ numClamp (-(Real.pi * (850511287798 / 1800000000000)))
      MIN_PHI MAX_PHI := left_le_numClamp _ MIN_PHI_le_MAX_PHI
  have hdomc : -HALF_PI < numClamp (-(Real.pi * (850511287798 / 1800000000000)))
      MIN_PHI MAX_PHI := lt_of_lt_of_le neg_half_pi_lt_MIN_PHI hcl_lo
  have hmaxlt : max (-(Real.pi * (850511287798 / 1800000000000))) MIN_PHI < HALF_PI := by
    apply max_lt
    · unfold HALF_PI
      nlinarith [Real.pi_pos]
    · exact lt_of_le_of_lt MIN_PHI_le_MAX_PHI MAX_PHI_lt_half_pi
  have hmono := mercatorY_le_mercatorY hdomc hclample hmaxlt
  rcases max_cases (-(Real.pi * (850511287798 / 1800000000000))) MIN_PHI with
    ⟨heq, _⟩ | ⟨heq, _⟩
  · rw [heq] at hmono
    exact le_trans hmono mercY_neg_t_le
  · rw [heq, mercatorY_MIN_PHI] at hmono
    have hd : (0 : ℝ) ≤ Real.pi * (1 / 256000000) := by positivity
    linarith

lemma clamp_t_bounds :
    Real.pi - Real.pi * (1 / 256000000) ≤
      mercatorY (numClamp (Real.pi * (850511287798 / 1800000000000)) MIN_PHI MAX_PHI) ∧
    mercatorY (numClamp (Real.pi * (850511287798 / 1800000000000)) MIN_PHI MAX_PHI) ≤
      Real.pi := by
  refine ⟨?_, (mercatorY_mem_of_clamped _).2⟩
  have hminle : min (Real.pi * (850511287798 / 1800000000000)) MAX_PHI ≤
      numClamp (Real.pi * (850511287798 / 1800000000000)) MIN_PHI MAX_PHI :=
    min_right_le_numClamp _ _ _
  have hdomm : -HALF_PI < min (Real.pi * (850511287798 / 1800000000000)) MAX_PHI := by
    apply lt_min
    · unfold HALF_PI
      nlinarith [Real.pi_pos]
    · linarith [neg_half_pi_lt_MIN_PHI, MIN_PHI_le_MAX_PHI]
  have hclhi : numClamp (Real.pi * (850511287798 / 1800000000000)) MIN_PHI MAX_PHI <
      HALF_PI :=
    lt_of_le_of_lt (numClamp_le_right _ _ _) MAX_PHI_lt_half_pi
  have hmono := mercatorY_le_mercatorY hdomm hminle hclhi
  rcases min_cases (Real.pi * (850511287798 / 1800000000000)) MAX_PHI with
    ⟨heq, _⟩ | ⟨heq, _⟩
  · rw [heq] at hmono
    exact le_trans mercY_t_ge hmono
  · rw [heq, mercatorY_MAX_PHI] at hmono
    have hd : (0 : ℝ) ≤ Real.pi * (1 / 256000000) := by positivity
    linarith

/-! ### Claim C8 — assembly -/

/-- Test fixture: the default Viewport (scale `256/π`, translation `(0,0)`,
rotation `0`, dimensions `[0,0]`). -/
def vp0 : ViewportState := mkViewport none none none none none

lemma vp0_r : vp0.transform.r = 0 := by
  show numWrap (jsOr none 0) 0 TAU = 0
  show numWrap 0 0 TAU = 0
  unfold numWrap
  rw [show ((0 : ℝ) - 0) / (TAU - 0) = 0 by simp, Int.fract_zero]
  ring

lemma vp0_k : vp0.transform.k = 256 / Real.pi := default_viewport_k

lemma mercatorY_zero : mercatorY 0 = 0 := by
  unfold mercatorY
  rw [show (HALF_PI + 0) / 2 = Real.pi / 4 by unfold HALF_PI; ring,
    Real.tan_pi_div_four, Real.log_one]

lemma conv_neg_t : (-85.0511287798 : ℝ) * DEG2RAD =
    -(Real.pi * (850511287798 / 1800000000000)) := by
  rw [show (-85.0511287798 : ℝ) = -(850511287798 / 10000000000) by norm_num]
  unfold DEG2RAD
  ring

lemma conv_pos_t : (85.0511287798 : ℝ) * DEG2RAD =
    Real.pi * (850511287798 / 1800000000000) := by
  rw [show (85.0511287798 : ℝ) = 850511287798 / 10000000000 by norm_num]
  unfold DEG2RAD
  ring

lemma c8p1 : Viewport.project vp0 (0, 0) false = (0, 0) := by
  apply Prod.ext
  · rw [project_false_eq]
    show (0 : ℝ) * DEG2RAD * vp0.transform.k + 0 = 0
    ring
  · rw [project_false_eq]
    show (0 : ℝ) - mercatorY (numClamp ((0 : ℝ) * DEG2RAD) MIN_PHI MAX_PHI) *
      vp0.transform.k = 0
    rw [zero_mul, numClamp_eq_self (le_of_lt MIN_PHI_neg) (le_of_lt MAX_PHI_pos),
      mercatorY_zero]
    ring

lemma c8p2x : (Viewport.project vp0 (180, -85.0511287798) false).1 = 256 := by
  rw [project_false_eq]
  show (180 : ℝ) * DEG2RAD * vp0.transform.k + 0 = 256
  rw [vp0_k]
  unfold DEG2RAD
  have h := Real.pi_ne_zero
  field_simp

lemma c8p2y : |(Viewport.project vp0 (180, -85.0511287798) false).2 - 256| ≤ 1e-6 := by
  rw [project_false_eq]
  show |(0 : ℝ) - mercatorY (numClamp ((-85.0511287798 : ℝ) * DEG2RAD) MIN_PHI MAX_PHI) *
    vp0.transform.k - 256| ≤ 1e-6
  rw [conv_neg_t, vp0_k]
  obtain ⟨h1, h2⟩ := clamp_neg_t_bounds
  have hk0 : (0 : ℝ) ≤ 256 / Real.pi := by positivity
  have e1 : Real.pi * (256 / Real.pi) = 256 := by field_simp
  have e2 : (Real.pi - Real.pi * (1 / 256000000)) * (256 / Real.pi) = 256 - 1e-6 := by
    field_simp
    ring
  have h3 := mul_le_mul_of_nonneg_right
    (show -(mercatorY (numClamp (-(Real.pi * (850511287798 / 1800000000000)))
      MIN_PHI MAX_PHI)) ≤ Real.pi by linarith) hk0
  have h4 := mul_le_mul_of_nonneg_right
    (show Real.pi - Real.pi * (1 / 256000000) ≤
      -(mercatorY (numClamp (-(Real.pi * (850511287798 / 1800000000000)))
        MIN_PHI MAX_PHI)) by linarith) hk0
  rw [abs_le]
  constructor
  · nlinarith [h4, e2]
  · nlinarith [h3, e1]

lemma c8p3x : (Viewport.project vp0 (-180, 85.0511287798) false).1 = -256 := by
  rw [project_false_eq]
  show (-180 : ℝ) * DEG2RAD * vp0.transform.k + 0 = -256
  rw [vp0_k]
  unfold DEG2RAD
  have h := Real.pi_ne_zero
  field_simp
  ring

lemma c8p3y : |(Viewport.project vp0 (-180, 85.0511287798) false).2 - -256| ≤ 1e-6 := by
  rw [project_false_eq]
  show |(0 : ℝ) - mercatorY (numClamp ((85.0511287798 : ℝ) * DEG2RAD) MIN_PHI MAX_PHI) *
    vp0.transform.k - -256| ≤ 1e-6
  rw [conv_pos_t, vp0_k]
  obtain ⟨h1, h2⟩ := clamp_t_bounds
  have hk0 : (0 : ℝ) ≤ 256 / Real.pi := by positivity
  have e3 : (Real.pi * (1 / 256000000) - Real.pi) * (256 / Real.pi) = 1e-6 - 256 := by
    field_simp
    ring
  have e4 : -Real.pi * (256 / Real.pi) = -256 := by
    field_simp
    ring
  have h3 := mul_le_mul_of_nonneg_right
    (show -(mercatorY (numClamp (Real.pi * (850511287798 / 1800000000000))
      MIN_PHI MAX_PHI)) ≤ Real.pi * (1 / 256000000) - Real.pi by linarith) hk0
  have h4 := mul_le_mul_of_nonneg_right
    (show -Real.pi ≤ -(mercatorY (numClamp (Real.pi * (850511287798 / 1800000000000))
      MIN_PHI MAX_PHI)) by linarith) hk0
  rw [abs_le]
  constructor
  · nlinarith [h4, e4]
  · nlinarith [h3, e3]

lemma c8p4x : (Viewport.unproject vp0 (256, 256) false).1 = 180 := by
  rw [unproject_zero_rot vp0 vp0_r]
  show ((256 : ℝ) - vp0.transform.x) / vp0.transform.k * RAD2DEG = 180
  rw [vp0_k]
  show ((256 : ℝ) - 0) / (256 / Real.pi) * RAD2DEG = 180
  unfold RAD2DEG
  have h := Real.pi_ne_zero
  field_simp

lemma c8p4y : |(Viewport.unproject vp0 (256, 256) false).2 - -85.0511287798| ≤ 1e-6 := by
  rw [unproject_zero_rot vp0 vp0_r]
  show |(2 * Real.arctan (Real.exp (numClamp ((vp0.transform.y - 256) / vp0.transform.k)
    (-Real.pi) Real.pi)) - HALF_PI) * RAD2DEG - -85.0511287798| ≤ 1e-6
  rw [vp0_k]
  rw [show ((vp0.transform.y - 256) / (256 / Real.pi) : ℝ) = -Real.pi by
    show ((0 : ℝ) - 256) / (256 / Real.pi) = -Real.pi
    have h := Real.pi_ne_zero
    field_simp
    ring]
  rw [numClamp_eq_self le_rfl (by linarith [Real.pi_pos])]
  rw [sub_neg_eq_add]
  have heq : (2 * Real.arctan (Real.exp (-Real.pi)) - HALF_PI) * RAD2DEG + 85.0511287798 =
      (2 * Real.arctan (Real.exp (-Real.pi)) - Real.pi / 2 +
        Real.pi * (850511287798 / 1800000000000)) * (180 / Real.pi) := by
    rw [show (85.0511287798 : ℝ) = 850511287798 / 10000000000 by norm_num]
    unfold HALF_PI RAD2DEG
    have h := Real.pi_ne_zero
    field_simp
    ring
  rw [heq, abs_mul, abs_of_pos (show (0 : ℝ) < 180 / Real.pi by positivity)]
  have habs : |2 * Real.arctan (Real.exp (-Real.pi)) - Real.pi / 2 +
      Real.pi * (850511287798 / 1800000000000)| ≤ 2 * Real.pi * (1 / 360000000) := by
    rw [abs_le]
    constructor
    · linarith [key2_lower]
    · linarith [key2_upper]
  have e5 : 2 * Real.pi * (1 / 360000000) * (180 / Real.pi) = 1e-6 := by
    have h := Real.pi_ne_zero
    field_simp
    ring
  calc |2 * Real.arctan (Real.exp (-Real.pi)) - Real.pi / 2 +
      Real.pi * (850511287798 / 1800000000000)| * (180 / Real.pi)
      ≤ 2 * Real.pi * (1 / 360000000) * (180 / Real.pi) :=
        mul_le_mul_of_nonneg_right habs (by positivity)
    _ = 1e-6 := e5

/-- C8: with the default Viewport (scale `256/π`, translation `(0,0)`, rotation
`0`), `project([0,0])` returns exactly `[0,0]`; `project([180, −85.0511287798])`
is within `1e-6` of `[256, 256]` (the x component exactly); `project([−180,
85.0511287798])` is within `1e-6` of `[−256, −256]`; and `unproject([256,256])`
is within `1e-6` of `[180, −85.0511287798]` (the longitude exactly `180`). -/
theorem c8_projection_reference_values :
    Viewport.project vp0 (0, 0) false = (0, 0) ∧
    ((Viewport.project vp0 (180, -85.0511287798) false).1 = 256 ∧
      |(Viewport.project vp0 (180, -85.0511287798) false).2 - 256| ≤ 1e-6) ∧
    ((Viewport.project vp0 (-180, 85.0511287798) false).1 = -256 ∧
      |(Viewport.project vp0 (-180, 85.0511287798) false).2 - -256| ≤ 1e-6) ∧
    ((Viewport.unproject vp0 (256, 256) false).1 = 180 ∧
      |(Viewport.unproject vp0 (256, 256) false).2 - -85.0511287798| ≤ 1e-6) :=
  ⟨c8p1, ⟨c8p2x, c8p2y⟩, ⟨c8p3x, c8p3y⟩, ⟨c8p4x, c8p4y⟩⟩

end

